import Mathlib

/-!
Shallow embedding of `master/buildbot/buildslave/ec2.py` (buildbot EC2 latent
build slave) and verification of the frozen claims about it.

Modelling conventions:
* Python floats (spot prices, bids, multipliers) are modelled as rationals `ℚ`.
* Remote boto calls are modelled by an explicit environment that supplies
  each response, and every function returns the list of `RemoteCall`s it made.
* `raise` is modelled with `Except PyErr`; the distinct Python exception
  classes that the module can raise are separate `PyErr` constructors.
* Unbounded `while` loops (polling) take a fuel argument and return `none`
  when the fuel runs out; `some` results are exact.
* Wall-clock time is not modelled; the `duration` counter of each polling
  loop advances by `_poll_resolution` per iteration, exactly as in the code.
* `log.msg`, `print` and `time.sleep` are side-effect free for the state we
  model and are omitted.
-/

namespace EC2

/-- Decidable equality for `Except`, so that concrete runs of the modelled
functions can be checked by `decide`. -/
instance exceptDecEq {ε α : Type} [DecidableEq ε] [DecidableEq α] :
    DecidableEq (Except ε α) := fun a b =>
  match a, b with
  | .ok x, .ok y =>
    if h : x = y then .isTrue (by rw [h]) else .isFalse (by simp [h])
  | .error x, .error y =>
    if h : x = y then .isTrue (by rw [h]) else .isFalse (by simp [h])
  | .ok _, .error _ => .isFalse (by simp)
  | .error _, .ok _ => .isFalse (by simp)

/-- Instance states used by the module (ec2.py lines 41-44). -/
def PENDING : String := "pending"

/-- RUNNING state constant. -/
def RUNNING : String := "running"

/-- SHUTTINGDOWN state constant. -/
def SHUTTINGDOWN : String := "shutting-down"

/-- TERMINATED state constant. -/
def TERMINATED : String := "terminated"

/-- Spot request pending states (ec2.py line 45). -/
def SPOT_REQUEST_PENDING_STATES : List String :=
  ["pending-evaluation", "pending-fulfillment"]

/-- FULFILLED spot status (line 46). -/
def FULFILLED : String := "fulfilled"

/-- PRICE_TOO_LOW spot status (line 47). -/
def PRICE_TOO_LOW : String := "price-too-low"

/-- View of a boto Image object: the fields ec2.py reads. -/
structure ImageObj where
  id : String
  location : String
  state : String
  deriving DecidableEq, Repr

/-- View of a boto Instance object: the fields ec2.py reads. -/
structure InstanceObj where
  id : String
  state : String
  public_dns_name : String
  deriving DecidableEq, Repr

/-- View of a boto spot instance request: the fields ec2.py reads.
`status_code` is `request.status.code`. -/
structure SpotRequestObj where
  id : String
  status_code : String
  instance_id : Option String
  deriving DecidableEq, Repr

/-- View of a boto Reservation: the fields ec2.py reads. -/
structure ReservationObj where
  id : String
  instances : List InstanceObj
  deriving DecidableEq, Repr

/-- One spot price history entry (fields read at ec2.py lines 448-451). -/
structure SpotPriceEntry where
  instance_type : String
  price : ℚ
  deriving DecidableEq, Repr

/-- View of a boto Volume object: the fields ec2.py reads. -/
structure VolumeObj where
  id : String
  status : String
  deriving DecidableEq, Repr

/-- Python values stored in a block-device-property dict. -/
inductive PyVal
  | pyBool (b : Bool)
  | pyInt (n : Int)
  | pyStr (s : String)
  deriving DecidableEq, Repr

/-- The Python exceptions that ec2.py can raise or propagate.
`valueError` is `ValueError` (the spec's IllegalState / InvalidConfiguration /
NoMatchingImage, depending on the site), `substantiationFailed` is
`interfaces.LatentBuildSlaveFailedToSubstantiate` with its positional
arguments, `ec2ResponseError` is a propagated `boto.exception.EC2ResponseError`
(carrying the error code, or the body at the sites that inspect `e.body`),
and the remaining constructors are the built-in Python errors the code can
hit (`int(None)`, `[0]` on an empty list, reading an unassigned local,
attribute access on `None`, a failed `assert`, an invalid regex pattern). -/
inductive PyErr
  | valueError (msg : String)
  | substantiationFailed (args : List String)
  | ec2ResponseError (error_code : String)
  | typeError
  | indexError
  | unboundLocalError
  | attributeError
  | assertionError (msg : String)
  | reError
  deriving DecidableEq, Repr

/-- Remote API calls the module can issue, with the parameters the claims
talk about.  Query parameters irrelevant to every claim (for example the
request ids passed to `get_all_spot_instance_requests`) are omitted. -/
inductive RemoteCall
  | regions
  | getAllKeyPairs (keypair_name : String)
  | createKeyPair (keypair_name : String)
  | getAllSecurityGroups (security_name : String)
  | createSecurityGroup (security_name : String)
  | getImageCall (ami : String)
  | getAllImages
  | getAllAddresses (ip : String)
  | runInstances (image_id : String)
  | getSpotPriceHistory
  | requestSpotInstances (price : ℚ) (image_ref : Option String)
  | getAllSpotInstanceRequests
  | getAllInstances (instance_id : Option String)
  | instUpdate (instance_id : String)
  | terminateCall (instance_id : String)
  | disassociateAddress (ip : String)
  | getConsoleOutput (instance_id : String)
  | useIp (instance_id : String) (ip : String)
  | getInstanceAttribute (instance_id : String)
  | modifyInstanceAttribute (instance_id : String)
  | createVolume (size : Nat) (zone : String)
  | getAllVolumes (volume_id : String)
  | attachVolume (volume_id : String) (instance_id : String) (device : String)
  | createTags (instance_id : String)
  deriving DecidableEq, Repr

/-- Result of applying the compiled `valid_ami_location_regex` match to an
image location (`re.compile(...).match(location)` followed by
`match.group(1)`): either no match, or a match whose pattern has no first
capture group (`group(1)` raises `IndexError`), or a match with a first
capture group that captured `some s` or did not participate (`none`). -/
inductive MatchRes
  | noMatch
  | noGroup
  | group1 (captured : Option String)
  deriving DecidableEq, Repr

/-- The mutable attributes of an `EC2LatentBuildSlave` object that the
modelled methods read or write.  `inst` is `self.instance` (`instance` is a
Lean keyword), `output` is `self.output`, and `matchf` models the non-empty
`self.valid_ami_location_regex` by its compiled match function (`none` when
the attribute is `None` or the empty — falsy — string). -/
structure SlaveState where
  inst : Option InstanceObj
  output : Option String
  image : Option ImageObj
  ami : Option String
  matchf : Option (String → MatchRes)
  valid_ami_owners : Option (List Int)
  instance_type : String
  keypair_name : String
  security_name : Option String
  classic_security_groups : Option (List String)
  user_data : Option String
  spot_instance : Bool
  max_spot_price : ℚ
  price_multiplier : ℚ
  volumes : List (String × String)
  create_volumes : List (String × Nat × String)
  delete_vol_term : Bool
  placement : Option String
  subnet_id : Option String
  security_group_ids : Option (List String)
  elastic_ip : Option String
  tags : List (String × String)
  block_device_map : Option (List (String × List (String × PyVal)))

/-- Poll interval, ec2.py line 59 (`_poll_resolution = 5`). -/
def _poll_resolution : Nat := 5

/-- Not-found retry ceiling, ec2.py line 60 (`_poll_retry = 10`). -/
def _poll_retry : Nat := 10

/-- The deferred unit of work `start_instance` schedules with
`threads.deferToThread` (ec2.py lines 306-308). -/
inductive DeferredWork
  | requestSpotInstanceWork
  | startInstanceWork
  deriving DecidableEq, Repr

/-- ec2.py lines 302-308: `start_instance` raises `ValueError('instance
active')` when an instance is already owned, otherwise defers
`_request_spot_instance` or `_start_instance` to a thread. -/
def start_instance (s : SlaveState) : Except PyErr DeferredWork :=
  if s.inst.isSome then .error (.valueError "instance active")
  else if s.spot_instance then .ok .requestSpotInstanceWork
  else .ok .startInstanceWork

/-- The synchronous outcome of `stop_instance`: either the already-succeeded
deferred (`defer.succeed(None)`), or deferred teardown work on the captured
instance. -/
inductive StopAction
  | immediateSuccess
  | deferredStop (inst : InstanceObj) (fast : Bool)
  deriving DecidableEq, Repr

/-- ec2.py lines 330-339: `stop_instance` succeeds immediately when no
instance is owned; otherwise it captures `self.instance`, clears
`self.output` and `self.instance`, and defers `_stop_instance` to a thread.
Returns (scheduled action, new state, remote calls made synchronously). -/
def stop_instance (s : SlaveState) (fast : Bool) :
    StopAction × SlaveState × List RemoteCall :=
  match s.inst with
  | none => (.immediateSuccess, s, [])
  | some i => (.deferredStop i fast, { s with output := none, inst := none }, [])

/-- ec2.py lines 424-432: the wait loop of `_stop_instance` (`while
instance.state not in goal`).  `upd` gives the result of the k-th
`instance.update()` of the teardown (error code, or new state); the updates
inside this loop are not wrapped in try/except, so any error propagates.
Returns `(outcome, next update index)`, `none` when fuel runs out. -/
def stop_wait_loop (upd : Nat → Except String String) :
    Nat → String → List String → Nat → Option (Except PyErr String × Nat)
  | fuel, st, goal, k =>
    if st ∈ goal then some (.ok st, k)
    else
      match fuel with
      | 0 => none
      | fuel' + 1 =>
        match upd k with
        | .error code => some (.error (.ec2ResponseError code), k + 1)
        | .ok st' => stop_wait_loop upd fuel' st' goal (k + 1)

/-- ec2.py lines 401-436: `_stop_instance(instance, fast)`.  Disassociates
the elastic address, refreshes the instance (treating
`InvalidInstanceID.NotFound` as already-terminated), terminates it unless it
is already shutting down, and waits for the goal states.  Note that the
method reads `self.elastic_ip` but never writes any attribute of `self`, so
it takes no `SlaveState` and returns none. -/
def _stop_instance (elastic_ip : Option String) (inst : InstanceObj)
    (fast : Bool) (upd : Nat → Except String String) (fuel : Nat) :
    Option (Except PyErr Unit × List RemoteCall) :=
  let ipCalls : List RemoteCall :=
    match elastic_ip with
    | some ip => [.disassociateAddress ip]
    | none => []
  match upd 0 with
  | .error code =>
    if code = "InvalidInstanceID.NotFound" then
      some (.ok (), ipCalls ++ [.instUpdate inst.id])
    else
      some (.error (.ec2ResponseError code), ipCalls ++ [.instUpdate inst.id])
  | .ok st1 =>
    let termCalls : List RemoteCall :=
      if st1 ∉ [SHUTTINGDOWN, TERMINATED] then [.terminateCall inst.id] else []
    let preCalls := ipCalls ++ [.instUpdate inst.id] ++ termCalls
    if fast then
      -- goal = (SHUTTINGDOWN, TERMINATED) and one extra unprotected update
      match upd 1 with
      | .error code =>
        some (.error (.ec2ResponseError code), preCalls ++ [.instUpdate inst.id])
      | .ok st2 =>
        match stop_wait_loop upd fuel st2 [SHUTTINGDOWN, TERMINATED] 2 with
        | none => none
        | some (res, k') =>
          some (res.map (fun _ => ()),
            preCalls ++ List.replicate (k' - 1) (RemoteCall.instUpdate inst.id))
    else
      match stop_wait_loop upd fuel st1 [TERMINATED] 1 with
      | none => none
      | some (res, k') =>
        some (res.map (fun _ => ()),
          preCalls ++ List.replicate (k' - 1) (RemoteCall.instUpdate inst.id))

/-- Python whitespace characters stripped by `int(str)`. -/
def pySpace (c : Char) : Bool :=
  c = ' ' || c = '\t' || c = '\n' || c = '\r'

/-- Interpret a list of characters as a non-empty run of decimal digits. -/
def digitsToNat : List Char → Option Nat
  | [] => none
  | cs =>
    cs.foldl
      (fun acc c =>
        match acc with
        | none => none
        | some n => if c.isDigit then some (n * 10 + (c.toNat - 48)) else none)
      (some 0)

/-- Model of Python 2 `int(s)` on a string: strip surrounding whitespace,
allow one optional sign, then require a non-empty run of decimal digits;
`none` models the `ValueError` that `get_image` catches at line 276. -/
def pyInt (s : String) : Option Int :=
  let cs := ((s.toList.dropWhile pySpace).reverse.dropWhile pySpace).reverse
  match cs with
  | '+' :: rest => (digitsToNat rest).map Int.ofNat
  | '-' :: rest => (digitsToNat rest).map (fun n => -(n : Int))
  | rest => (digitsToNat rest).map Int.ofNat

/-- One row of the `options` list built by `get_image` (ec2.py line 278):
`[int_sort, alpha_sort, image.location, image.id, image]`. -/
structure Candidate where
  int_sort : Option Int
  alpha_sort : Option String
  location : String
  id : String
  img : ImageObj
  deriving DecidableEq, Repr

/-- The candidate-gathering loop of `get_image` (ec2.py lines 253-279):
walks the images, keeps the available ones whose location matches, extracts
the sort keys, and escalates `level` (0 = numeric first group, 1 = lexical
first group, 2 = no usable group).  A capture group that exists but did not
participate gives `match.group(1) = None`, and `int(None)` at level 0 raises
an uncaught `TypeError`. -/
def gatherOptions (f : String → MatchRes) :
    List ImageObj → Nat → List Candidate → Except PyErr (Nat × List Candidate)
  | [], level, acc => .ok (level, acc)
  | image :: rest, level, acc =>
    if image.state ≠ "available" then gatherOptions f rest level acc
    else
      match f image.location with
      | .noMatch => gatherOptions f rest level acc
      | .noGroup =>
        if level < 2 then
          gatherOptions f rest 2
            (acc ++ [⟨none, none, image.location, image.id, image⟩])
        else
          gatherOptions f rest level
            (acc ++ [⟨none, none, image.location, image.id, image⟩])
      | .group1 g =>
        if level < 2 then
          match g with
          | none =>
            if level = 0 then .error .typeError
            else
              gatherOptions f rest level
                (acc ++ [⟨none, none, image.location, image.id, image⟩])
          | some str =>
            if level = 0 then
              match pyInt str with
              | some n =>
                gatherOptions f rest 0
                  (acc ++ [⟨some n, some str, image.location, image.id, image⟩])
              | none =>
                gatherOptions f rest 1
                  (acc ++ [⟨none, some str, image.location, image.id, image⟩])
            else
              gatherOptions f rest level
                (acc ++ [⟨none, some str, image.location, image.id, image⟩])
        else
          gatherOptions f rest level
            (acc ++ [⟨none, none, image.location, image.id, image⟩])

/-- Strict lexicographic order on character lists (how Python 2 compares
the — here ASCII — location, id and capture strings). -/
def charListLt : List Char → List Char → Bool
  | _, [] => false
  | [], _ :: _ => true
  | a :: as, b :: bs =>
    if a < b then true else if b < a then false else charListLt as bs

/-- Strict order on strings, by their character lists. -/
def strLt (a b : String) : Bool := charListLt a.toList b.toList

/-- Strict order on integers, as a boolean. -/
def intLtB (a b : Int) : Bool := decide (a < b)

/-- Lexicographic step over a strict comparator: compare `x` and `y`,
falling through to `rest` on a tie.  This is how Python 2 compares two
lists or tuples elementwise. -/
def lexStepB {α : Type} (lt : α → α → Bool) (x y : α) (rest : Bool) : Bool :=
  if lt x y then true else if lt y x then false else rest

/-- Lexicographic step on optional values: Python 2 orders `None` before
every other value, which is what the sort at line 287 does with the `None`
sort keys. -/
def lexStepOptB {α : Type} (lt : α → α → Bool) :
    Option α → Option α → Bool → Bool
  | none, none, rest => rest
  | none, some _, _ => true
  | some _, none, _ => false
  | some a, some b, rest => lexStepB lt a b rest

/-- The ordering `options.sort()` uses on the (conceptually
`candidate[level:]`-truncated) rows: at level 0 compare
`(int_sort, alpha_sort, location, id)`, at level 1
`(alpha_sort, location, id)`, at level ≥ 2 `(location, id)`.  Rows that tie
on all these fields would make Python 2 compare the trailing image objects
by identity; such full ties require two images with equal id and location
and are not modelled. -/
def rowLe (level : Nat) (a b : Candidate) : Bool :=
  if level = 0 then
    lexStepOptB intLtB a.int_sort b.int_sort
      (lexStepOptB strLt a.alpha_sort b.alpha_sort
        (lexStepB strLt a.location b.location
          (lexStepB strLt a.id b.id true)))
  else if level = 1 then
    lexStepOptB strLt a.alpha_sort b.alpha_sort
      (lexStepB strLt a.location b.location (lexStepB strLt a.id b.id true))
  else
    lexStepB strLt a.location b.location (lexStepB strLt a.id b.id true)

/-- ec2.py lines 252-294, regex branch of `get_image`: gather candidates,
truncate the sort keys at the final level, sort ascending (stably, as
Python's sort), raise `ValueError('no available images match constraints')`
(the spec's NoMatchingImage) when empty, and return the image of the last —
greatest — row. -/
def get_image_regex (f : String → MatchRes) (images : List ImageObj) :
    Except PyErr ImageObj :=
  match gatherOptions f images 0 [] with
  | .error e => .error e
  | .ok (level, opts) =>
    let sorted := List.insertionSort (fun a b => rowLe level a b = true) opts
    match sorted.getLast? with
    | none => .error (.valueError "no available images match constraints")
    | some c => .ok c.img

/-- ec2.py lines 283-294, no-regex branch of `get_image`: candidates are
`(image.location, image.id, image)` triples, sorted ascending, last wins. -/
def get_image_noregex (images : List ImageObj) : Except PyErr ImageObj :=
  let opts := images.map (fun i =>
    (⟨none, none, i.location, i.id, i⟩ : Candidate))
  let sorted := List.insertionSort (fun a b => rowLe 2 a b = true) opts
  match sorted.getLast? with
  | none => .error (.valueError "no available images match constraints")
  | some c => .ok c.img

/-- Modelled from the claim's words (C3): ascending ordering by
"(sort-key, location, identifier)" — at the numeric level the sort key is
the parsed integer and the tie-break goes directly to the location, with no
intervening comparison of the capture string.  Levels 1 and 2 coincide with
`rowLe`. -/
def specRowLe (level : Nat) (a b : Candidate) : Bool :=
  if level = 0 then
    lexStepOptB intLtB a.int_sort b.int_sort
      (lexStepB strLt a.location b.location (lexStepB strLt a.id b.id true))
  else if level = 1 then
    lexStepOptB strLt a.alpha_sort b.alpha_sort
      (lexStepB strLt a.location b.location (lexStepB strLt a.id b.id true))
  else
    lexStepB strLt a.location b.location (lexStepB strLt a.id b.id true)

/-- Modelled from the claim's words (C3): the selector that sorts the same
candidate set ascending by `(sort-key, location, identifier)` and returns
the last element, to be compared with `get_image_regex`. -/
def selectImage_claimOrder (f : String → MatchRes) (images : List ImageObj) :
    Except PyErr ImageObj :=
  match gatherOptions f images 0 [] with
  | .error e => .error e
  | .ok (level, opts) =>
    let sorted := List.insertionSort (fun a b => specRowLe level a b = true) opts
    match sorted.getLast? with
    | none => .error (.valueError "no available images match constraints")
    | some c => .ok c.img

/-- ec2.py lines 249-294: `get_image`.  Returns `self.image` when set (the
explicit-ami configuration resolved it at construction time); otherwise
enumerates the images of the configured owners (`get_all_images`, one remote
call whose response is `images`) and selects by the regex or plain
ordering. -/
def get_image (s : SlaveState) (images : List ImageObj) :
    Except PyErr ImageObj × List RemoteCall :=
  match s.image with
  | some img => (.ok img, [])
  | none =>
    match s.matchf with
    | some f => (get_image_regex f images, [.getAllImages])
    | none => (get_image_noregex images, [.getAllImages])

/-- ec2.py lines 446-455: the target bid of `_request_spot_instance`.  Sum
and count the history entries whose `instance_type` matches; with no match
the bid is the fixed fallback `0.02`, otherwise the average times
`self.price_multiplier`. -/
def computeTargetPrice (spot_prices : List SpotPriceEntry)
    (instance_type : String) (price_multiplier : ℚ) : ℚ :=
  let f := spot_prices.foldl
    (fun (acc : ℚ × Nat) price =>
      if price.instance_type = instance_type then (acc.1 + price.price, acc.2 + 1)
      else acc)
    (0, 0)
  if f.2 = 0 then 2 / 100
  else f.1 / (f.2 : ℚ) * price_multiplier

/-- Responses of the remote API during provisioning.  Indexed families give
the response of the k-th call of the corresponding kind. -/
structure Env where
  images : List ImageObj
  run_reservation : ReservationObj
  inst_updates : Nat → Except String String
  console_output : String
  spot_prices : List SpotPriceEntry
  spot_request_reservations : List SpotRequestObj
  spot_queries : Nat → Except String (List SpotRequestObj)
  instances_result : List ReservationObj
  block_device_mapping : List String
  create_volume_ids : Nat → String
  volume_queries : Nat → Except String (List VolumeObj)

/-- ec2.py lines 485-501: the pending-wait loop of `_wait_for_instance`
(`while self.instance.state == PENDING`).  `upd k` is the k-th
`self.instance.update()` (error code, or the refreshed state);
`InvalidInstanceID.NotFound` is tolerated as still-pending, any other
remote error is fatal.  Returns `(raised error if any, final observed
state, number of updates made, elapsed duration)`; `none` when fuel runs
out. -/
def wait_instance_loop (upd : Nat → Except String String) :
    Nat → String → Nat → Nat → Option (Option PyErr × String × Nat × Nat)
  | fuel, st, k, dur =>
    if st = PENDING then
      match fuel with
      | 0 => none
      | fuel' + 1 =>
        match upd k with
        | .error code =>
          if code = "InvalidInstanceID.NotFound" then
            wait_instance_loop upd fuel' st (k + 1) (dur + _poll_resolution)
          else some (some (.ec2ResponseError code), st, k + 1, dur + _poll_resolution)
        | .ok st' => wait_instance_loop upd fuel' st' (k + 1) (dur + _poll_resolution)
    else some (none, st, k, dur)

/-- Zero-padded rendering of `%02d`. -/
def pad2 (n : Nat) : String :=
  if n < 10 then "0" ++ toString n else toString n

/-- ec2.py lines 513-514: `'%02d:%02d:%02d' % (minutes // 60, minutes % 60,
seconds)` with `minutes = duration // 60` and `seconds = duration % 60`. -/
def fmtStartTime (duration : Nat) : String :=
  pad2 (duration / 60 / 60) ++ ":" ++ pad2 (duration / 60 % 60) ++ ":" ++
    pad2 (duration % 60)

/-- Membership of `xs` as a contiguous sublist of `ys`, written directly so
concrete runs reduce. -/
def isSubChainAt : List Char → List Char → Bool
  | [], _ => true
  | _ :: _, [] => false
  | a :: as, b :: bs => (a = b) && isSubChainAt as bs

/-- Contiguous-sublist test on character lists. -/
def isSubChain (xs : List Char) : List Char → Bool
  | [] => isSubChainAt xs []
  | l@(_ :: bs) => isSubChainAt xs l || isSubChain xs bs

/-- Python `sub in s` on two strings: substring containment.  ec2.py line
364 writes `vol.status not in (VOLUME_AVAILABLE)` where `(VOLUME_AVAILABLE)`
is just the string `'available'`, so the loop condition really is a
substring test of the status inside `'available'`. -/
def pyInStr (sub s : String) : Bool := isSubChain sub.toList s.toList

/-- ec2.py lines 364-377: the creation-wait loop of `_create_volumes`
(`while vol.status not in (VOLUME_AVAILABLE)`).  `q qk` is the qk-th
`get_all_volumes([new_vol.id])` of the provisioning attempt; inside the
loop the query is wrapped in a try that re-raises every
`EC2ResponseError`.  Returns `(outcome, next query index)`. -/
def volume_wait_loop (q : Nat → Except String (List VolumeObj)) :
    Nat → VolumeObj → Nat → Option (Except PyErr VolumeObj × Nat)
  | fuel, vol, qk =>
    if ¬ pyInStr vol.status "available" then
      match fuel with
      | 0 => none
      | fuel' + 1 =>
        match q qk with
        | .error code => some (.error (.ec2ResponseError code), qk + 1)
        | .ok [] => some (.error .indexError, qk + 1)
        | .ok (v :: _) => volume_wait_loop q fuel' v (qk + 1)
    else some (.ok vol, qk)

/-- ec2.py lines 357-380: `_create_volumes`.  For each declared volume spec
create the volume, poll it to `available` (the first `get_all_volumes` at
line 363 is outside the try, but an error there propagates just the same),
then attach it.  `ck`/`qk` thread the creation and query response indices;
returns `(outcome, ck', qk', calls)`. -/
def _create_volumes_go (instId : String) (env : Env) :
    List (String × Nat × String) → Nat → Nat → Nat →
    Option (Except PyErr Unit × Nat × Nat × List RemoteCall)
  | [], _, ck, qk => some (.ok (), ck, qk, [])
  | (device_node, volume_size, zone) :: rest, fuel, ck, qk =>
    let volId := env.create_volume_ids ck
    let createCall : List RemoteCall := [.createVolume volume_size zone]
    match env.volume_queries qk with
    | .error code =>
      some (.error (.ec2ResponseError code), ck + 1, qk + 1,
        createCall ++ [.getAllVolumes volId])
    | .ok [] =>
      some (.error .indexError, ck + 1, qk + 1,
        createCall ++ [.getAllVolumes volId])
    | .ok (v :: _) =>
      match volume_wait_loop env.volume_queries fuel v (qk + 1) with
      | none => none
      | some (.error e, qk') =>
        some (.error e, ck + 1, qk',
          createCall ++ List.replicate (qk' - qk) (RemoteCall.getAllVolumes volId))
      | some (.ok vol, qk') =>
        match _create_volumes_go instId env rest fuel (ck + 1) qk' with
        | none => none
        | some (res, ck'', qk'', calls') =>
          some (res, ck'', qk'',
            createCall ++
              List.replicate (qk' - qk) (RemoteCall.getAllVolumes volId) ++
              [.attachVolume vol.id instId device_node] ++ calls')

/-- ec2.py lines 341-355: `_handle_delete_on_term`.  Skipped when the
controller preserves volumes; otherwise reads the instance's block device
mapping and, when it names any device, requests delete-on-termination for
each (a failed modify is only logged). -/
def _handle_delete_on_term (delete_vol_term : Bool) (instId : String)
    (env : Env) : List RemoteCall :=
  if delete_vol_term = false then []
  else
    [.getInstanceAttribute instId] ++
      (if env.block_device_mapping ≠ [] then
        [RemoteCall.modifyInstanceAttribute instId]
      else [])

/-- ec2.py lines 382-386: `_attach_volumes` attaches each pre-existing
volume to its device node. -/
def _attach_volumes (volumes : List (String × String)) (instId : String) :
    List RemoteCall :=
  volumes.map (fun v => .attachVolume v.1 instId v.2)

/-- ec2.py lines 388-399: `_handle_volumes` — create declared volumes, set
delete-on-termination, attach pre-existing volumes, then fetch the block
device mapping once more for the log. -/
def _handle_volumes (create_volumes : List (String × Nat × String))
    (delete_vol_term : Bool) (volumes : List (String × String))
    (instId : String) (env : Env) (fuel : Nat) :
    Option (Except PyErr Unit × List RemoteCall) :=
  let createPart :=
    if create_volumes.length > 0 then
      _create_volumes_go instId env create_volumes fuel 0 0
    else some (.ok (), 0, 0, [])
  match createPart with
  | none => none
  | some (.error e, _, _, cc) => some (.error e, cc)
  | some (.ok _, _, _, cc) =>
    let delCalls := _handle_delete_on_term delete_vol_term instId env
    let attachCalls :=
      if volumes.length > 0 then _attach_volumes volumes instId else []
    some (.ok (), cc ++ delCalls ++ attachCalls ++ [.getInstanceAttribute instId])

/-- ec2.py lines 480-520: `_wait_for_instance(image)`.  Polls the owned
instance out of PENDING; when it reaches RUNNING, snapshots the console
output into `self.output`, binds the elastic address, provisions volumes,
tags the instance and returns `(instance id, image.id, start-time string)`;
when it reaches any other state, returns `(None, None, None)`.  Note that
the second component is the `.id` of whatever object the caller passed as
`image`, so `image_id` here is that id.  The refreshed instance state is
written back to `self.instance`. -/
def _wait_for_instance (s : SlaveState) (image_id : String) (env : Env)
    (fuel : Nat) :
    Option (SlaveState ×
      Except PyErr (Option String × Option String × Option String) ×
      List RemoteCall) :=
  match s.inst with
  | none => some (s, .error .attributeError, [])
  | some inst0 =>
    match wait_instance_loop env.inst_updates fuel inst0.state 0 0 with
    | none => none
    | some (err?, st, k, dur) =>
      let s1 : SlaveState := { s with inst := some { inst0 with state := st } }
      let updCalls := List.replicate k (RemoteCall.instUpdate inst0.id)
      match err? with
      | some e => some (s1, .error e, updCalls)
      | none =>
        if st = RUNNING then
          let s2 : SlaveState := { s1 with output := some env.console_output }
          let ipCalls : List RemoteCall :=
            match s.elastic_ip with
            | some ip => [.useIp inst0.id ip]
            | none => []
          match _handle_volumes s.create_volumes s.delete_vol_term s.volumes
              inst0.id env fuel with
          | none => none
          | some (.error e, volCalls) =>
            some (s2, .error e,
              updCalls ++ [.getConsoleOutput inst0.id] ++ ipCalls ++ volCalls)
          | some (.ok _, volCalls) =>
            let tagCalls : List RemoteCall :=
              if s.tags.length > 0 then [.createTags inst0.id] else []
            some (s2,
              .ok (some inst0.id, some image_id, some (fmtStartTime dur)),
              updCalls ++ [.getConsoleOutput inst0.id] ++ ipCalls ++ volCalls ++
                tagCalls)
        else some (s1, .ok (none, none, none), updCalls)

/-- ec2.py lines 525-544: the first loop of `_wait_for_request` (`while
attempts < self._poll_retry`), written with the remaining attempt budget
`remaining = _poll_retry - attempts` counting down.  Each iteration queries
the spot request; `InvalidSpotInstanceRequestID.NotFound` sleeps and
retries, any other remote error propagates, and an empty response makes
`requests[0]` raise an uncaught `IndexError`.  When the budget is
exhausted the loop falls through with the local `request_status` never
assigned, so line 545 raises `UnboundLocalError`.  Returns the outcome and
the number of queries made. -/
def find_request_go (q : Nat → Except String (List SpotRequestObj)) :
    Nat → Nat → Except PyErr SpotRequestObj × Nat
  | 0, k => (.error .unboundLocalError, k)
  | remaining + 1, k =>
    match q k with
    | .ok [] => (.error .indexError, k + 1)
    | .ok (r :: _) => (.ok r, k + 1)
    | .error code =>
      if code = "InvalidSpotInstanceRequestID.NotFound" then
        find_request_go q remaining (k + 1)
      else (.error (.ec2ResponseError code), k + 1)

/-- The first loop of `_wait_for_request`, entered with `attempts = 0` and
a full budget of `_poll_retry` attempts. -/
def find_request (q : Nat → Except String (List SpotRequestObj)) :
    Except PyErr SpotRequestObj × Nat :=
  find_request_go q _poll_retry 0

/-- ec2.py lines 545-563: the second loop of `_wait_for_request` (`while
request_status in SPOT_REQUEST_PENDING_STATES`).  Re-queries while the
status is a pending one; `NotFound` is tolerated (the status variable keeps
its pending value), other remote errors propagate, and an empty response
raises an uncaught `IndexError`.  Returns `(outcome, next query index)`. -/
def spot_pending_loop (q : Nat → Except String (List SpotRequestObj)) :
    Nat → SpotRequestObj → Nat → Option (Except PyErr SpotRequestObj × Nat)
  | fuel, req, k =>
    if req.status_code ∈ SPOT_REQUEST_PENDING_STATES then
      match fuel with
      | 0 => none
      | fuel' + 1 =>
        match q k with
        | .ok [] => some (.error .indexError, k + 1)
        | .ok (r :: _) => spot_pending_loop q fuel' r (k + 1)
        | .error code =>
          if code = "InvalidSpotInstanceRequestID.NotFound" then
            spot_pending_loop q fuel' req (k + 1)
          else some (.error (.ec2ResponseError code), k + 1)
    else some (.ok req, k)

/-- ec2.py lines 522-582: `_wait_for_request(reservation)`.  Finds the spot
request (bounded not-found retry), waits out the pending states, then
dispatches on the terminal status: `fulfilled` succeeds, `price-too-low`
and every other status raise `LatentBuildSlaveFailedToSubstantiate` with
the request id and status.  Returns the outcome and the total number of
`get_all_spot_instance_requests` queries. -/
def _wait_for_request (q : Nat → Except String (List SpotRequestObj))
    (fuel : Nat) : Option (Except PyErr SpotRequestObj × Nat) :=
  match find_request q with
  | (.error e, k) => some (.error e, k)
  | (.ok req, k) =>
    match spot_pending_loop q fuel req k with
    | none => none
    | some (.error e, k') => some (.error e, k')
    | some (.ok req', k') =>
      if req'.status_code = FULFILLED then some (.ok req', k')
      else if req'.status_code = PRICE_TOO_LOW then
        some (.error (.substantiationFailed [req'.id, req'.status_code]), k')
      else
        some (.error (.substantiationFailed [req'.id, req'.status_code]), k')

/-- ec2.py lines 310-328: `_start_instance`.  Resolves the image, issues
the single on-demand run request, takes the first instance of the
reservation as the owned handle, waits for it, and either returns
`[instance_id, image_id, start_time]` or raises
`LatentBuildSlaveFailedToSubstantiate(self.instance.id,
self.instance.state)`.  Note line 319 passes the reservation object as the
`image` argument of `_wait_for_instance`, so the middle component of a
successful result is the reservation's id. -/
def _start_instance (s : SlaveState) (env : Env) (fuel : Nat) :
    Option (SlaveState × Except PyErr (List String) × List RemoteCall) :=
  match get_image s env.images with
  | (.error e, gc) => some (s, .error e, gc)
  | (.ok image, gc) =>
    let runCalls := gc ++ [RemoteCall.runInstances image.id]
    match env.run_reservation.instances with
    | [] => some (s, .error .indexError, runCalls)
    | inst :: _ =>
      let s1 : SlaveState := { s with inst := some inst }
      match _wait_for_instance s1 env.run_reservation.id env fuel with
      | none => none
      | some (s2, .error e, wc) => some (s2, .error e, runCalls ++ wc)
      | some (s2, .ok (some a, some b, some c), wc) =>
        some (s2, .ok [a, b, c], runCalls ++ wc)
      | some (s2, .ok _, wc) =>
        match s2.inst with
        | some i =>
          some (s2, .error (.substantiationFailed [i.id, i.state]),
            runCalls ++ wc)
        | none => some (s2, .error .attributeError, runCalls ++ wc)

/-- ec2.py lines 438-478: `_request_spot_instance`.  Computes the target
bid from the trailing-24h price history (the history query is one remote
call whose response is `env.spot_prices`), fails with
`LatentBuildSlaveFailedToSubstantiate()` when the bid exceeds
`self.max_spot_price`, otherwise issues the spot request at the bid with
`self.ami` as the image reference, waits for fulfillment, resolves the
request's instance, and finishes with
`_wait_for_instance(self.get_image())`. -/
def _request_spot_instance (s : SlaveState) (env : Env) (fuel : Nat) :
    Option (SlaveState ×
      Except PyErr (Option String × Option String × Option String) ×
      List RemoteCall) :=
  let target_price :=
    computeTargetPrice env.spot_prices s.instance_type s.price_multiplier
  let histCall : List RemoteCall := [.getSpotPriceHistory]
  if target_price > s.max_spot_price then
    some (s, .error (.substantiationFailed []), histCall)
  else
    let reqCalls := histCall ++ [RemoteCall.requestSpotInstances target_price s.ami]
    match env.spot_request_reservations with
    | [] => some (s, .error .indexError, reqCalls)
    | _reservation :: _ =>
      match _wait_for_request env.spot_queries fuel with
      | none => none
      | some (.error e, nq) =>
        some (s, .error e,
          reqCalls ++ List.replicate nq RemoteCall.getAllSpotInstanceRequests)
      | some (.ok request, nq) =>
        let qCalls :=
          reqCalls ++ List.replicate nq RemoteCall.getAllSpotInstanceRequests
        let gaiCalls := qCalls ++ [RemoteCall.getAllInstances request.instance_id]
        match env.instances_result with
        | [] => some (s, .error .indexError, gaiCalls)
        | resv :: _ =>
          match resv.instances with
          | [] => some (s, .error .indexError, gaiCalls)
          | inst :: _ =>
            let s1 : SlaveState := { s with inst := some inst }
            match get_image s1 env.images with
            | (.error e, gc) => some (s1, .error e, gaiCalls ++ gc)
            | (.ok image, gc) =>
              match _wait_for_instance s1 image.id env fuel with
              | none => none
              | some (s2, res, wc) => some (s2, res, gaiCalls ++ gc ++ wc)

/-- The remote calls eventually issued by one `start_instance` invocation:
none at all when the call raises synchronously, otherwise the calls of the
deferred work it scheduled. -/
def start_instance_calls (s : SlaveState) (env : Env) (fuel : Nat) :
    Option (List RemoteCall) :=
  match start_instance s with
  | .error _ => some []
  | .ok .requestSpotInstanceWork =>
    (_request_spot_instance s env fuel).map (fun r => r.2.2)
  | .ok .startInstanceWork =>
    (_start_instance s env fuel).map (fun r => r.2.2)

/-- Python truthiness of an optional string: `None` and the empty string
are falsy. -/
def strTruthy : Option String → Bool
  | none => false
  | some s => s ≠ ""

/-- The `valid_ami_owners` constructor argument: `None`, a single
int/long, or an iterable whose elements may or may not be ints (a non-int
element is rejected at line 95). -/
inductive OwnersElem
  | intElem (n : Int)
  | badElem (repr : String)
  deriving DecidableEq, Repr

/-- Shape of a non-`None` `valid_ami_owners` argument. -/
inductive OwnersArg
  | intOwner (n : Int)
  | listOwner (xs : List OwnersElem)
  deriving DecidableEq, Repr

/-- The `valid_ami_location_regex` constructor argument when not `None`:
either a string pattern — carrying whether `re.compile` accepts it and, if
so, its compiled match function — or a non-string value (rejected at line
100). -/
inductive RegexArg
  | strPattern (pattern : String) (compiles : Bool) (f : String → MatchRes)
  | nonStr (repr : String)

/-- The constructor arguments of `EC2LatentBuildSlave` that the model
tracks (ec2.py lines 62-73), minus `name`/`password`/scheduler plumbing
forwarded to the base class. -/
structure Config where
  instance_type : String
  ami : Option String
  valid_ami_owners : Option OwnersArg
  valid_ami_location_regex : Option RegexArg
  elastic_ip : Option String
  identifier : Option String
  secret_identifier : Option String
  aws_id_file_path : Option String
  user_data : Option String
  region : Option String
  keypair_name : Option String
  security_name : Option String
  subnet_id : Option String
  security_group_ids : Option (List String)
  spot_instance : Bool
  max_spot_price : ℚ
  volumes : List (String × String)
  placement : Option String
  price_multiplier : ℚ
  tags : List (String × String)
  delete_vol_term : Bool
  create_volumes : List (String × Nat × String)
  block_device_map : Option (List (String × List (String × PyVal)))

/-- Remote responses consumed while the constructor runs. -/
structure InitEnv where
  regions : List String
  default_aws_id_exists : Bool
  aws_file_lines : String × String
  key_pairs : Except String (List Unit)
  security_groups : Except String (List Unit)
  image_for_ami : ImageObj
  images : List ImageObj
  addresses : List String

/-- The values the synchronous validation prefix of the constructor
produces for the rest of the constructor. -/
structure CheckedConfig where
  owners : Option (List Int)
  matchf : Option (String → MatchRes)
  keypair_name : String
  security_name : Option String
  placement : Option String

/-- ec2.py lines 89-97: the `valid_ami_owners` element check and the
normalisation of a single int to a one-element tuple. -/
def owners_check : Option OwnersArg → Except PyErr (Option (List Int))
  | none => .ok none
  | some (.intOwner n) => .ok (some [n])
  | some (.listOwner xs) =>
    if xs.all (fun e => match e with | .intElem _ => true | .badElem _ => false)
    then
      .ok (some (xs.filterMap
        (fun e => match e with | .intElem n => some n | .badElem _ => none)))
    else .error (.valueError "valid_ami_owners should be int or iterable of ints")

/-- ec2.py lines 98-104: the `valid_ami_location_regex` type check and
compile check.  `get_image` later tests `if self.valid_ami_location_regex:`,
so an empty (falsy) pattern behaves there like no pattern at all and is
normalised to `none` here. -/
def regex_check : Option RegexArg →
    Except PyErr (Option (String → MatchRes))
  | none => .ok none
  | some (.nonStr _) =>
    .error (.valueError "valid_ami_location_regex should be a string")
  | some (.strPattern pattern compiles f) =>
    if compiles then .ok (if pattern = "" then none else some f)
    else .error .reError

/-- ec2.py lines 128-147: the credential-pair assertions (the deprecated
credential file only yields values the model does not track). -/
def credentials_check (cfg : Config) : Except PyErr Unit :=
  match cfg.identifier with
  | none =>
    if cfg.secret_identifier.isSome then
      .error (.assertionError "supply both or neither of identifier, secret_identifier")
    else .ok ()
  | some _ =>
    if cfg.aws_id_file_path.isSome then
      .error (.assertionError
        "if you supply the identifier and secret_identifier, do not specify the aws_id_file_path")
    else if cfg.secret_identifier.isNone then
      .error (.assertionError "supply both or neither of identifier, secret_identifier")
    else .ok ()

/-- ec2.py lines 78-147: the validation prefix of the constructor — every
check that runs before any remote call.  In order: the classic-security-
group/VPC exclusion (line 78), the image xor constraint (line 82), the
owner-element type check (line 89), the location-regex type and compile
check (line 98), the keypair and security-group name defaults (lines
105-110), the placement string (line 124), and the credential-pair
assertions with the deprecated credential-file fallback (lines 128-147). -/
def init_checks (cfg : Config) : Except PyErr CheckedConfig :=
  if strTruthy cfg.security_name && strTruthy cfg.subnet_id then
    .error (.valueError
      "security_name (EC2 classic security groups) is not supported in a VPC.  Use security_group_ids instead.")
  else if xor cfg.ami.isSome
      (cfg.valid_ami_owners.isSome || cfg.valid_ami_location_regex.isSome)
      = false then
    .error (.valueError
      "You must provide either a specific ami, or one or both of valid_ami_location_regex and valid_ami_owners")
  else
    match owners_check cfg.valid_ami_owners with
    | .error e => .error e
    | .ok owners =>
      match regex_check cfg.valid_ami_location_regex with
      | .error e => .error e
      | .ok matchf =>
        let keypair_name := cfg.keypair_name.getD "latent_buildbot_slave"
        let security_name :=
          if cfg.security_name.isNone && ¬ strTruthy cfg.subnet_id then
            some "latent_buildbot_slave"
          else cfg.security_name
        let placement :=
          match cfg.placement, cfg.region with
          | some p, some r => some (r ++ p)
          | _, _ => none
        match credentials_check cfg with
        | .error e => .error e
        | .ok _ => .ok ⟨owners, matchf, keypair_name, security_name, placement⟩

/-- ec2.py lines 235-247: `create_block_device_mapping`.  A falsy argument
gives no mapping; otherwise every device's properties default
`delete_on_termination` to `True` unless the caller set it. -/
def create_block_device_mapping
    (mapping_definitions : Option (List (String × List (String × PyVal)))) :
    Option (List (String × List (String × PyVal))) :=
  match mapping_definitions with
  | none => none
  | some [] => none
  | some defs =>
    some (defs.map (fun d =>
      (d.1,
        if (d.2.map Prod.fst).contains "delete_on_termination" then d.2
        else d.2 ++ [("delete_on_termination", PyVal.pyBool true)])))

/-- ec2.py lines 170-233: the constructor after the connection is made —
key pair fetch-or-create (a missing key pair is created, any other error
including an empty response propagates), security group fetch-or-create,
image resolution (explicit `get_image(self.ami)`, or the constraint smoke
check through `get_image`), elastic address lookup, and the final
attribute assignments building the slave's state. -/
def init_remote_conn (cfg : Config) (cc : CheckedConfig) (env : InitEnv)
    (calls0 : List RemoteCall) : Except PyErr SlaveState × List RemoteCall :=
  -- key pair (lines 178-195)
  let kpCalls := calls0 ++ [RemoteCall.getAllKeyPairs cc.keypair_name]
  let kpRes : Except PyErr (List RemoteCall) :=
    match env.key_pairs with
    | .ok [] => .error .indexError
    | .ok (_ :: _) => .ok kpCalls
    | .error body =>
      if ¬ pyInStr "InvalidKeyPair.NotFound" body then
        .error (.ec2ResponseError body)
      else .ok (kpCalls ++ [.createKeyPair cc.keypair_name])
  match kpRes with
  | .error e => (.error e, kpCalls)
  | .ok calls1 =>
    -- security group (lines 197-215)
    let sgRes : Except PyErr (List RemoteCall) :=
      match cc.security_name with
      | some sn =>
        if sn ≠ "" then
          match env.security_groups with
          | .ok [] => .error .indexError
          | .ok (_ :: _) => .ok (calls1 ++ [.getAllSecurityGroups sn])
          | .error body =>
            if pyInStr "InvalidGroup.NotFound" body then
              .ok (calls1 ++ [.getAllSecurityGroups sn, .createSecurityGroup sn])
            else .error (.ec2ResponseError body)
        else .ok calls1
      | none => .ok calls1
    match sgRes with
    | .error e =>
      (.error e,
        calls1 ++ [.getAllSecurityGroups (cc.security_name.getD "")])
    | .ok calls2 =>
      -- image (lines 217-223)
      let imgRes : Except PyErr (Option ImageObj × List RemoteCall) :=
        match cfg.ami with
        | some a => .ok (some env.image_for_ami, calls2 ++ [.getImageCall a])
        | none =>
          let sel :=
            match cc.matchf with
            | some f => get_image_regex f env.images
            | none => get_image_noregex env.images
          match sel with
          | .error e => .error e
          | .ok _ => .ok (none, calls2 ++ [.getAllImages])
      match imgRes with
      | .error e => (.error e, calls2 ++ [.getAllImages])
      | .ok (image, calls3) =>
        -- elastic address (lines 226-228)
        let ipRes : Except PyErr (Option String × List RemoteCall) :=
          match cfg.elastic_ip with
          | none => .ok (none, calls3)
          | some ip =>
            match env.addresses with
            | [] => .error .indexError
            | a :: _ => .ok (some a, calls3 ++ [.getAllAddresses ip])
        match ipRes with
        | .error e =>
          (.error e, calls3 ++ [.getAllAddresses (cfg.elastic_ip.getD "")])
        | .ok (elastic, calls4) =>
          (.ok
            { inst := none
              output := none
              image := image
              ami := cfg.ami
              matchf := cc.matchf
              valid_ami_owners := cc.owners
              instance_type := cfg.instance_type
              keypair_name := cc.keypair_name
              security_name := cc.security_name
              classic_security_groups :=
                if strTruthy cc.security_name then
                  some [cc.security_name.getD ""]
                else none
              user_data := cfg.user_data
              spot_instance := cfg.spot_instance
              max_spot_price := cfg.max_spot_price
              price_multiplier := cfg.price_multiplier
              volumes := cfg.volumes
              create_volumes := cfg.create_volumes
              delete_vol_term := cfg.delete_vol_term
              placement := cc.placement
              subnet_id := cfg.subnet_id
              security_group_ids := cfg.security_group_ids
              elastic_ip := elastic
              tags := cfg.tags
              block_device_map :=
                create_block_device_mapping cfg.block_device_map },
            calls4)

/-- ec2.py lines 149-233: the remote phase of the constructor — region
lookup, key pair fetch-or-create, security group fetch-or-create, image
resolution (or the constraint smoke check), elastic address lookup — and
the final attribute assignments building the slave's state. -/
def init_remote (cfg : Config) (cc : CheckedConfig) (env : InitEnv) :
    Except PyErr SlaveState × List RemoteCall :=
  -- region resolution (lines 149-168)
  let regionCalls : List RemoteCall :=
    match cfg.region with
    | some _ => [.regions]
    | none => []
  match cfg.region with
  | some r =>
    if ¬ env.regions.contains r then
      (.error (.valueError ("The specified region does not exist: " ++ r)),
        regionCalls)
    else init_remote_conn cfg cc env regionCalls
  | none => init_remote_conn cfg cc env regionCalls

/-- ec2.py lines 62-233: the whole constructor — the synchronous
validation prefix (which can issue no remote call), then the remote
phase. -/
def EC2LatentBuildSlave_init (cfg : Config) (env : InitEnv) :
    Except PyErr SlaveState × List RemoteCall :=
  match init_checks cfg with
  | .error e => (.error e, [])
  | .ok cc => init_remote cfg cc env

/-- Composition of the synchronous part of `stop_instance` with the deferred
`_stop_instance` teardown it schedules: returns the controller state after
both, the teardown outcome (`none` for fuel exhaustion, or when no teardown
was scheduled the immediate success), and all remote calls. -/
def stop_then_teardown (s : SlaveState) (fast : Bool)
    (upd : Nat → Except String String) (fuel : Nat) :
    SlaveState × Option (Except PyErr Unit) × List RemoteCall :=
  match stop_instance s fast with
  | (.immediateSuccess, s', calls) => (s', some (.ok ()), calls)
  | (.deferredStop i f, s', calls) =>
    match _stop_instance s'.elastic_ip i f upd fuel with
    | none => (s', none, calls)
    | some (r, tc) => (s', some r, calls ++ tc)

/-! Concrete inputs used to exercise the model. -/

/-- A resolved explicit image. -/
def imgAmi : ImageObj := ⟨"ami-base", "loc-base", "available"⟩

/-- A running instance. -/
def instA : InstanceObj := ⟨"i-123", "running", "dns-a"⟩

/-- A slave configured with an explicit ami and the spot path, as built by
the constructor. -/
def sBase : SlaveState :=
  { inst := none, output := none, image := some imgAmi, ami := some "ami-base"
    matchf := none, valid_ami_owners := none, instance_type := "m1.large"
    keypair_name := "latent_buildbot_slave"
    security_name := some "latent_buildbot_slave"
    classic_security_groups := some ["latent_buildbot_slave"]
    user_data := none, spot_instance := true, max_spot_price := 8 / 5
    price_multiplier := 6 / 5, volumes := [], create_volumes := []
    delete_vol_term := false, placement := none, subnet_id := none
    security_group_ids := none, elastic_ip := none, tags := []
    block_device_map := none }

/-- `sBase` already owning an instance. -/
def sActive : SlaveState := { sBase with inst := some instA }

/-- A benign environment. -/
def envBase : Env :=
  { images := [], run_reservation := ⟨"r-0", []⟩
    inst_updates := fun _ => .ok "running", console_output := "console"
    spot_prices := [], spot_request_reservations := []
    spot_queries := fun _ => .error "InvalidSpotInstanceRequestID.NotFound"
    instances_result := [], block_device_mapping := []
    create_volume_ids := fun _ => "vol-0"
    volume_queries := fun _ => .ok [⟨"vol-0", "available"⟩] }

/-- An environment whose price history drives the bid over the ceiling
(average 2, times multiplier 6/5, against ceiling 8/5). -/
def envHigh : Env := { envBase with spot_prices := [⟨"m1.large", 2⟩] }

/-- An environment whose price history drives the bid exactly onto the
ceiling (average 4/3, times multiplier 6/5, equals 8/5). -/
def envEq : Env := { envBase with spot_prices := [⟨"m1.large", 4 / 3⟩] }

/-- A well-formed configuration: explicit ami, no selection constraints. -/
def cfgGood : Config :=
  { instance_type := "m1.large", ami := some "ami-base"
    valid_ami_owners := none, valid_ami_location_regex := none
    elastic_ip := none, identifier := none, secret_identifier := none
    aws_id_file_path := none, user_data := none, region := none
    keypair_name := none, security_name := none, subnet_id := none
    security_group_ids := none, spot_instance := false
    max_spot_price := 8 / 5, volumes := [], placement := none
    price_multiplier := 6 / 5, tags := [], delete_vol_term := true
    create_volumes := [], block_device_map := none }

/-- A rejected configuration: both an explicit ami and an owner filter. -/
def cfgBoth : Config := { cfgGood with valid_ami_owners := some (.intOwner 123) }

/-- A rejected configuration: neither an explicit ami nor constraints. -/
def cfgNeither : Config := { cfgGood with ami := none }

/-- A benign construction-time environment. -/
def initEnvGood : InitEnv :=
  { regions := [], default_aws_id_exists := false, aws_file_lines := ("", "")
    key_pairs := .ok [()], security_groups := .ok [()]
    image_for_ami := imgAmi, images := [], addresses := [] }

/-- Classifier for claim C8: is a propagated error a remote-API failure
(a `boto.exception.EC2ResponseError`)? -/
def isRemoteApiFailure : PyErr → Bool
  | .ec2ResponseError _ => true
  | _ => false

/-- A spot-request query environment that always answers "not found". -/
def notFoundAlways : Nat → Except String (List SpotRequestObj) :=
  fun _ => .error "InvalidSpotInstanceRequestID.NotFound"

/-- A fulfilled spot request bound to instance i-1. -/
def sirFulfilled : SpotRequestObj := ⟨"sir-1", "fulfilled", some "i-1"⟩

/-- A spot-request query environment that answers "not found" three times
and then succeeds. -/
def nfThenOk : Nat → Except String (List SpotRequestObj) :=
  fun k =>
    if k < 3 then .error "InvalidSpotInstanceRequestID.NotFound"
    else .ok [sirFulfilled]

/-- The skip conditions of the candidate-gathering loop: an image
contributes a candidate exactly when it is available and its location
matches. -/
def keptImage (f : String → MatchRes) (image : ImageObj) : Bool :=
  if image.state ≠ "available" then false
  else
    match f image.location with
    | .noMatch => false
    | _ => true

/-- The sort-key extraction level a single matched candidate induces on its
own: 2 when the pattern has no first group, 1 when the capture does not
parse as an integer, 0 when it does. -/
def shapeLevel : MatchRes → Nat
  | .noMatch => 0
  | .noGroup => 2
  | .group1 none => 0
  | .group1 (some str) => if (pyInt str).isSome then 0 else 1

/-- The escalation of the extraction level over a whole image list: the
running maximum of the per-candidate levels of the kept images. -/
def shapeLevelFold (f : String → MatchRes) : Nat → List ImageObj → Nat
  | l, [] => l
  | l, image :: rest =>
    if keptImage f image then
      shapeLevelFold f (Nat.max l (shapeLevel (f image.location))) rest
    else shapeLevelFold f l rest

/-- An available image whose location matches `z*-(\d+)` with capture "1". -/
def imgZ1 : ImageObj := ⟨"ami-a", "z-1", "available"⟩

/-- An available image whose location matches `z*-(\d+)` with capture
"01". -/
def imgZZ01 : ImageObj := ⟨"ami-b", "zz-01", "available"⟩

/-- The match function the pattern `z*-(\d+)` induces on the two locations
above: both match, capturing "1" and "01" — equal as integers, distinct as
strings, and ordered oppositely to the locations. -/
def c3matchf (loc : String) : MatchRes :=
  if loc = "z-1" then .group1 (some "1")
  else if loc = "zz-01" then .group1 (some "01")
  else .noMatch

/-- The candidate rows gathered from `[imgZ1, imgZZ01]` under `c3matchf`. -/
def c3opts : List Candidate :=
  [⟨some 1, some "1", "z-1", "ami-a", imgZ1⟩,
   ⟨some 1, some "01", "zz-01", "ami-b", imgZZ01⟩]

/-- An available image whose first capture under `(.*)-x` is the numeric
"1". -/
def img1x : ImageObj := ⟨"id1", "1-x", "available"⟩

/-- An available image whose first capture under `(.*)-x` is the
non-numeric "a". -/
def imgax : ImageObj := ⟨"id2", "a-x", "available"⟩

/-- The match function the pattern `(.*)-x` induces on the two locations
above: the first candidate's capture is numeric, the second's is not. -/
def c7matchf (loc : String) : MatchRes :=
  if loc = "1-x" then .group1 (some "1")
  else if loc = "a-x" then .group1 (some "a")
  else .noMatch

/-- The candidate rows gathered from `[img1x, imgax]` under `c7matchf`. -/
def c7opts : List Candidate :=
  [⟨some 1, some "1", "1-x", "id1", img1x⟩,
   ⟨none, some "a", "a-x", "id2", imgax⟩]

/-- A pending instance bound to a fulfilled spot request. -/
def instPending : InstanceObj := ⟨"i-1", "pending", "dns-1"⟩

/-- An environment in which the spot request is immediately fulfilled but
the resolved instance transitions from pending straight to terminated, and
an on-demand run would yield the same instance. -/
def envC4 : Env :=
  { envBase with
    run_reservation := ⟨"r-1", [instPending]⟩
    spot_request_reservations := [⟨"sir-1", "pending-evaluation", none⟩]
    spot_queries := fun _ => .ok [sirFulfilled]
    instances_result := [⟨"r-1", [instPending]⟩]
    inst_updates := fun _ => .ok "terminated" }

/-- The image the selection constraints of `sConstraints` resolve to. -/
def imgSel : ImageObj := ⟨"ami-7", "loc-1", "available"⟩

/-- A match function under which only `imgSel`'s location matches, with a
numeric capture. -/
def c9matchf (loc : String) : MatchRes :=
  if loc = "loc-1" then .group1 (some "7") else .noMatch

/-- A slave configured with image-selection constraints instead of an
explicit ami: `self.ami` is `None`. -/
def sConstraints : SlaveState :=
  { sBase with
    ami := none
    image := none
    matchf := some c9matchf
    valid_ami_owners := some [42] }

/-- An environment in which the spot request is fulfilled and the resolved
instance is already running. -/
def envC9 : Env :=
  { envBase with
    images := [imgSel]
    spot_request_reservations := [⟨"sir-1", "pending-evaluation", none⟩]
    spot_queries := fun _ => .ok [sirFulfilled]
    instances_result := [⟨"r-1", [⟨"i-1", "running", "dns-1"⟩]⟩] }

/-! Theorems. -/

/-- C1: when the controller already owns an instance, `start_instance`
fails immediately with `ValueError('instance active')` (the spec's
`IllegalState`), schedules no deferred work, and consequently issues no
remote call at all — in particular neither an on-demand run request nor a
spot request. -/
theorem start_instance_active_raises (s : SlaveState) (i : InstanceObj)
    (h : s.inst = some i) :
    start_instance s = .error (.valueError "instance active") ∧
    ∀ env fuel, start_instance_calls s env fuel = some [] := by
  have hs : s.inst.isSome = true := by rw [h]; rfl
  refine ⟨by simp [start_instance, hs], fun env fuel => ?_⟩
  simp [start_instance_calls, start_instance, hs]

/-- Witness for C1 at a concrete owning state. -/
theorem start_instance_active_raises_witness :
    start_instance sActive = .error (.valueError "instance active") ∧
    start_instance_calls sActive envBase 0 = some [] :=
  ⟨(start_instance_active_raises sActive instA rfl).1,
   (start_instance_active_raises sActive instA rfl).2 envBase 0⟩

/-- C5: when no instance is owned, `stop_instance` is an idempotent no-op:
it returns the already-succeeded deferred, leaves the state untouched and
performs no remote call (no address disassociation, no status refresh, no
terminate). -/
theorem stop_instance_none_noop (s : SlaveState) (fast : Bool)
    (h : s.inst = none) :
    stop_instance s fast = (.immediateSuccess, s, []) := by
  simp [stop_instance, h]

/-- Witness for C5 at a concrete non-owning state. -/
theorem stop_instance_none_noop_witness :
    stop_instance sBase true = (.immediateSuccess, sBase, []) :=
  stop_instance_none_noop sBase true rfl

/-- C10: when an instance is owned, `stop_instance` synchronously clears
exactly the owned handle and the console-output snapshot (every other field
of the state is untouched) before the deferred teardown is scheduled; the
state after the teardown completes is that same cleared state regardless of
how `_stop_instance` ends (success, already-gone, remote failure, or
non-termination); and a subsequent `start_instance` on the cleared state is
permitted (it schedules work instead of raising `IllegalState`). -/
theorem stop_instance_clears_handle (s : SlaveState) (i : InstanceObj)
    (fast : Bool) (h : s.inst = some i) :
    stop_instance s fast =
      (.deferredStop i fast, { s with inst := none, output := none }, []) ∧
    (∀ upd fuel, (stop_then_teardown s fast upd fuel).1 =
      { s with inst := none, output := none }) ∧
    start_instance { s with inst := none, output := none } =
      .ok (if s.spot_instance then .requestSpotInstanceWork
           else .startInstanceWork) := by
  refine ⟨by simp [stop_instance, h], fun upd fuel => ?_, ?_⟩
  · simp only [stop_then_teardown, stop_instance, h]
    cases _stop_instance ({ s with inst := none, output := none } :
        SlaveState).elastic_ip i fast upd fuel with
    | none => rfl
    | some r => rfl
  · cases hsp : s.spot_instance <;> simp [start_instance, hsp]

/-- Witness for C10 at a concrete owning state, a teardown environment
that succeeds, and one that raises. -/
theorem stop_instance_clears_handle_witness :
    stop_instance sActive false =
      (.deferredStop instA false,
        { sActive with inst := none, output := none }, []) ∧
    (stop_then_teardown sActive false (fun _ => .ok "terminated") 3).1 =
      { sActive with inst := none, output := none } ∧
    (stop_then_teardown sActive false (fun _ => .error "AuthFailure") 3).1 =
      { sActive with inst := none, output := none } ∧
    start_instance { sActive with inst := none, output := none } =
      .ok .requestSpotInstanceWork :=
  ⟨(stop_instance_clears_handle sActive instA false rfl).1,
   (stop_instance_clears_handle sActive instA false rfl).2.1 _ 3,
   (stop_instance_clears_handle sActive instA false rfl).2.1 _ 3,
   (stop_instance_clears_handle sActive instA false rfl).2.2⟩

/-- The price/count accumulation loop of `_request_spot_instance` computes
the sum and the count of the matching history entries. -/
theorem price_fold_spec (it : String) (prices : List SpotPriceEntry) :
    ∀ (a : ℚ) (n : Nat),
      prices.foldl
        (fun (acc : ℚ × Nat) price =>
          if price.instance_type = it then (acc.1 + price.price, acc.2 + 1)
          else acc) (a, n) =
      (a + ((prices.filter (fun p => p.instance_type = it)).map
          (fun p => p.price)).sum,
        n + (prices.filter (fun p => p.instance_type = it)).length) := by
  induction prices with
  | nil => intro a n; simp
  | cons p ps ih =>
    intro a n
    by_cases hp : p.instance_type = it
    · rw [List.foldl_cons, if_pos hp, ih]
      have hfc : List.filter (fun p => decide (p.instance_type = it)) (p :: ps)
          = p :: List.filter (fun p => decide (p.instance_type = it)) ps := by
        simp [hp]
      rw [hfc]
      simp only [List.map_cons, List.sum_cons, List.length_cons, Prod.mk.injEq]
      exact ⟨by ring, by omega⟩
    · rw [List.foldl_cons, if_neg hp, ih]
      simp [hp]

/-- `computeTargetPrice` in closed form: the 0.02 fallback with no matching
entry, otherwise mean times multiplier. -/
theorem computeTargetPrice_eq (prices : List SpotPriceEntry) (it : String)
    (mult : ℚ) :
    computeTargetPrice prices it mult =
      if (prices.filter (fun p => p.instance_type = it)).length = 0 then
        2 / 100
      else
        ((prices.filter (fun p => p.instance_type = it)).map
            (fun p => p.price)).sum /
          ((prices.filter (fun p => p.instance_type = it)).length : ℚ) *
          mult := by
  unfold computeTargetPrice
  rw [price_fold_spec]
  simp

/-- C2: the spot bid policy.  (1) With no history entry for the configured
instance type the target bid is exactly 0.02; (2) otherwise it is the
arithmetic mean of the matching prices times the price multiplier; (3) a
bid strictly above the ceiling makes `_request_spot_instance` raise
`SubstantiationFailed` after only the price-history query — no spot request
is issued and the state is unchanged; (4) a bid at or below the ceiling
(in particular exactly at it) proceeds to issue the spot request at that
bid. -/
theorem spot_bid_policy (prices : List SpotPriceEntry) (it : String)
    (mult : ℚ) (s : SlaveState) (env : Env) (fuel : Nat) :
    (prices.filter (fun p => p.instance_type = it) = [] →
      computeTargetPrice prices it mult = 2 / 100) ∧
    (prices.filter (fun p => p.instance_type = it) ≠ [] →
      computeTargetPrice prices it mult =
        ((prices.filter (fun p => p.instance_type = it)).map
            (fun p => p.price)).sum /
          ((prices.filter (fun p => p.instance_type = it)).length : ℚ) *
          mult) ∧
    (computeTargetPrice env.spot_prices s.instance_type s.price_multiplier >
        s.max_spot_price →
      _request_spot_instance s env fuel =
        some (s, .error (.substantiationFailed []),
          [.getSpotPriceHistory])) ∧
    (computeTargetPrice env.spot_prices s.instance_type s.price_multiplier ≤
        s.max_spot_price →
      ∀ s' res calls, _request_spot_instance s env fuel = some (s', res, calls) →
        RemoteCall.requestSpotInstances
          (computeTargetPrice env.spot_prices s.instance_type
            s.price_multiplier) s.ami ∈ calls) := by
  refine ⟨?_, ?_, ?_, ?_⟩
  · intro hfil
    rw [computeTargetPrice_eq]
    simp [hfil]
  · intro hfil
    have hlen : (prices.filter (fun p => p.instance_type = it)).length ≠ 0 := by
      simpa [List.length_eq_zero] using hfil
    rw [computeTargetPrice_eq, if_neg hlen]
  · intro hgt
    simp only [_request_spot_instance, if_pos hgt]
  · intro hle s' res calls hrun
    simp only [_request_spot_instance, if_neg (not_lt.mpr hle)] at hrun
    repeat' split at hrun
    all_goals
      first
      | exact Option.noConfusion hrun
      | (simp only [Option.some.injEq, Prod.mk.injEq] at hrun
         obtain ⟨-, -, rfl⟩ := hrun
         simp)

/-- Witness for C2: the empty-history fallback, the mean-times-multiplier
formula at one entry, the strict-excess failure with no spot request, and
the equal-to-ceiling case issuing the request at the computed bid. -/
theorem spot_bid_policy_witness :
    computeTargetPrice [] "m1.large" (6 / 5) = 2 / 100 ∧
    computeTargetPrice [⟨"m1.large", 3⟩] "m1.large" (6 / 5) = 18 / 5 ∧
    _request_spot_instance sBase envHigh 0 =
      some (sBase, .error (.substantiationFailed []),
        [.getSpotPriceHistory]) ∧
    computeTargetPrice envEq.spot_prices sBase.instance_type
        sBase.price_multiplier = sBase.max_spot_price ∧
    RemoteCall.requestSpotInstances
        (computeTargetPrice envEq.spot_prices sBase.instance_type
          sBase.price_multiplier) sBase.ami ∈
      [RemoteCall.getSpotPriceHistory,
        RemoteCall.requestSpotInstances
          (computeTargetPrice envEq.spot_prices sBase.instance_type
            sBase.price_multiplier) sBase.ami] := by
  have heqc : computeTargetPrice envEq.spot_prices sBase.instance_type
      sBase.price_multiplier = sBase.max_spot_price := by
    norm_num [computeTargetPrice, envEq, envBase, sBase]
  refine ⟨(spot_bid_policy [] "m1.large" (6 / 5) sBase envBase 0).1 rfl,
    ?_, ?_, heqc, ?_⟩
  · have hfil : (([⟨"m1.large", 3⟩] : List SpotPriceEntry).filter
        (fun p => p.instance_type = "m1.large")) = [⟨"m1.large", 3⟩] := rfl
    have h2 := (spot_bid_policy [⟨"m1.large", 3⟩] "m1.large" (6 / 5) sBase
      envBase 0).2.1 (by rw [hfil]; exact List.cons_ne_nil _ _)
    rw [hfil] at h2
    rw [h2]
    norm_num
  · refine (spot_bid_policy [] "m1.large" (6 / 5) sBase envHigh 0).2.2.1 ?_
    norm_num [computeTargetPrice, envHigh, envBase, sBase]
  · have hle : computeTargetPrice envEq.spot_prices sBase.instance_type
        sBase.price_multiplier ≤ sBase.max_spot_price := le_of_eq heqc
    have hrun : _request_spot_instance sBase envEq 0 =
        some (sBase, .error .indexError,
          [RemoteCall.getSpotPriceHistory,
            RemoteCall.requestSpotInstances
              (computeTargetPrice envEq.spot_prices sBase.instance_type
                sBase.price_multiplier) sBase.ami]) := by
      simp only [_request_spot_instance, if_neg (not_lt.mpr hle)]
      rfl
    exact (spot_bid_policy [] "m1.large" (6 / 5) sBase envEq 0).2.2.2 hle
      _ _ _ hrun


/-- A configuration passing the validation prefix satisfies the image xor
constraint: exactly one of the explicit ami and the selection constraints
is set. -/
theorem init_checks_ok_xor (cfg : Config) (cc : CheckedConfig)
    (h : init_checks cfg = .ok cc) :
    xor cfg.ami.isSome
      (cfg.valid_ami_owners.isSome ||
        cfg.valid_ami_location_regex.isSome) = true := by
  by_contra hx
  have hx' : xor cfg.ami.isSome
      (cfg.valid_ami_owners.isSome ||
        cfg.valid_ami_location_regex.isSome) = false :=
    Bool.not_eq_true _ ▸ hx
  unfold init_checks at h
  by_cases h1 : (strTruthy cfg.security_name && strTruthy cfg.subnet_id) = true
  · rw [if_pos h1] at h
    exact Except.noConfusion h
  · rw [if_neg (by simp [h1]), if_pos hx'] at h
    exact Except.noConfusion h

/-- C6: construction accepts a configuration only when exactly one of the
explicit image reference and the image-selection constraints is set.  When
both or neither are set, the constructor raises a `ValueError` — the
spec's `InvalidConfiguration` — synchronously, before any remote call is
made: its call trace is empty, so in particular no launch is ever
attempted for that configuration. -/
theorem init_image_xor (cfg : Config) (env : InitEnv) :
    (xor cfg.ami.isSome
        (cfg.valid_ami_owners.isSome ||
          cfg.valid_ami_location_regex.isSome) = false →
      ∃ msg, EC2LatentBuildSlave_init cfg env =
        (.error (.valueError msg), [])) ∧
    (∀ s calls, EC2LatentBuildSlave_init cfg env = (.ok s, calls) →
      xor cfg.ami.isSome
        (cfg.valid_ami_owners.isSome ||
          cfg.valid_ami_location_regex.isSome) = true) := by
  constructor
  · intro hxor
    by_cases h1 : (strTruthy cfg.security_name &&
        strTruthy cfg.subnet_id) = true
    · refine ⟨"security_name (EC2 classic security groups) is not supported in a VPC.  Use security_group_ids instead.", ?_⟩
      unfold EC2LatentBuildSlave_init init_checks
      rw [if_pos h1]
    · refine ⟨"You must provide either a specific ami, or one or both of valid_ami_location_regex and valid_ami_owners", ?_⟩
      unfold EC2LatentBuildSlave_init init_checks
      rw [if_neg h1, if_pos hxor]
  · intro s calls h
    unfold EC2LatentBuildSlave_init at h
    rcases hck : init_checks cfg with e | cc
    · rw [hck] at h
      exact absurd (congrArg Prod.fst h) (by simp)
    · exact init_checks_ok_xor cfg cc hck

/-- Witness for C6: the both-set and neither-set configurations are
rejected with a `ValueError` and no remote call, and a well-formed
configuration is accepted, exhibiting the xor. -/
theorem init_image_xor_witness :
    (∃ msg, EC2LatentBuildSlave_init cfgBoth initEnvGood =
      (.error (.valueError msg), [])) ∧
    (∃ msg, EC2LatentBuildSlave_init cfgNeither initEnvGood =
      (.error (.valueError msg), [])) ∧
    xor cfgGood.ami.isSome
      (cfgGood.valid_ami_owners.isSome ||
        cfgGood.valid_ami_location_regex.isSome) = true :=
  ⟨(init_image_xor cfgBoth initEnvGood).1 rfl,
   (init_image_xor cfgNeither initEnvGood).1 rfl,
   (init_image_xor cfgGood initEnvGood).2 _ _ rfl⟩


/-- An all-not-found prefix exhausts the attempt budget of the
request-finding loop and falls through to the unbound-local failure. -/
theorem find_request_go_all_notfound
    (q : Nat → Except String (List SpotRequestObj)) :
    ∀ rem k,
      (∀ j, j < rem → q (k + j) = .error "InvalidSpotInstanceRequestID.NotFound") →
      find_request_go q rem k = (.error .unboundLocalError, k + rem) := by
  intro rem
  induction rem with
  | zero => intro k _; simp [find_request_go]
  | succ r ih =>
    intro k h
    have h0 : q k = .error "InvalidSpotInstanceRequestID.NotFound" := by
      simpa using h 0 (by omega)
    rw [find_request_go, h0]
    dsimp only
    rw [if_pos rfl,
      ih (k + 1) (fun j hj => by
        have := h (j + 1) (by omega)
        rwa [Nat.add_comm j 1, ← Nat.add_assoc] at this)]
    congr 1
    omega

/-- The request-finding loop never propagates the transient not-found
error itself. -/
theorem find_request_go_no_notfound
    (q : Nat → Except String (List SpotRequestObj)) :
    ∀ rem k, (find_request_go q rem k).1 ≠
      .error (.ec2ResponseError "InvalidSpotInstanceRequestID.NotFound") := by
  intro rem
  induction rem with
  | zero => intro k; simp [find_request_go]
  | succ r ih =>
    intro k
    rw [find_request_go]
    rcases hq : q k with code | l
    · dsimp only
      by_cases hc : code = "InvalidSpotInstanceRequestID.NotFound"
      · rw [if_pos hc]
        exact ih (k + 1)
      · rw [if_neg hc]
        simp [hc]
    · cases l <;> simp

/-- Fewer not-found answers than the budget followed by a successful
answer make the request-finding loop return that request. -/
theorem find_request_go_success
    (q : Nat → Except String (List SpotRequestObj)) :
    ∀ m rem k r rest, m < rem →
      (∀ j, j < m → q (k + j) = .error "InvalidSpotInstanceRequestID.NotFound") →
      q (k + m) = .ok (r :: rest) →
      find_request_go q rem k = (.ok r, k + m + 1) := by
  intro m
  induction m with
  | zero =>
    intro rem k r rest hlt _ hok
    obtain ⟨r', rfl⟩ := Nat.exists_eq_succ_of_ne_zero (Nat.pos_iff_ne_zero.mp hlt)
    rw [find_request_go, (by simpa using hok :
      q k = .ok (r :: rest))]
  | succ m ih =>
    intro rem k r rest hlt hnf hok
    obtain ⟨r', rfl⟩ := Nat.exists_eq_succ_of_ne_zero
      (Nat.pos_iff_ne_zero.mp (Nat.lt_of_le_of_lt (Nat.zero_le _) hlt))
    have h0 : q k = .error "InvalidSpotInstanceRequestID.NotFound" := by
      simpa using hnf 0 (by omega)
    rw [find_request_go, h0]
    dsimp only
    rw [if_pos rfl,
      ih r' (k + 1) r rest (by omega)
        (fun j hj => by
          have := hnf (j + 1) (by omega)
          rwa [Nat.add_comm j 1, ← Nat.add_assoc] at this)
        (by rwa [Nat.add_comm m 1, ← Nat.add_assoc] at hok)]
    congr 1
    omega

/-- C8 (amended): the spot-request flavor of the readiness poller retries
the "resource not found yet" transient error up to the not-found retry
ceiling `_poll_retry = 10`; the transient error itself never surfaces past
the loop; a success within the budget returns the found request; but when
the ceiling is exhausted the failure that propagates to the caller is a
local `UnboundLocalError` (`request_status` is read at line 545 without
ever being assigned), not a remote-API failure. -/
theorem find_request_retry_policy
    (q : Nat → Except String (List SpotRequestObj)) :
    ((∀ j, j < _poll_retry →
        q j = .error "InvalidSpotInstanceRequestID.NotFound") →
      find_request q = (.error .unboundLocalError, _poll_retry) ∧
        isRemoteApiFailure .unboundLocalError = false) ∧
    (∀ rem k, (find_request_go q rem k).1 ≠
      .error (.ec2ResponseError "InvalidSpotInstanceRequestID.NotFound")) ∧
    (∀ m r rest, m < _poll_retry →
      (∀ j, j < m → q j = .error "InvalidSpotInstanceRequestID.NotFound") →
      q m = .ok (r :: rest) →
      find_request q = (.ok r, m + 1)) := by
  refine ⟨fun h => ⟨?_, rfl⟩, find_request_go_no_notfound q, ?_⟩
  · have := find_request_go_all_notfound q _poll_retry 0
      (fun j hj => by simpa using h j hj)
    simpa [find_request] using this
  · intro m r rest hm hnf hok
    have := find_request_go_success q m _poll_retry 0 r rest hm
      (fun j hj => by simpa using hnf j hj) (by simpa using hok)
    simpa [find_request] using this

/-- Witness for C8 (amended) at the all-not-found environment and at a
three-failures-then-success environment. -/
theorem find_request_retry_policy_witness :
    (find_request notFoundAlways = (.error .unboundLocalError, 10) ∧
      isRemoteApiFailure .unboundLocalError = false) ∧
    (find_request_go notFoundAlways 10 0).1 ≠
      .error (.ec2ResponseError "InvalidSpotInstanceRequestID.NotFound") ∧
    find_request nfThenOk = (.ok sirFulfilled, 4) :=
  ⟨(find_request_retry_policy notFoundAlways).1 (fun _ _ => rfl),
   (find_request_retry_policy notFoundAlways).2.1 10 0,
   (find_request_retry_policy nfThenOk).2.2 3 sirFulfilled [] (by decide)
     (fun j hj => by
        have : j < 3 := hj
        simp [nfThenOk, this])
     (by simp [nfThenOk])⟩

/-- Counterexample for C8 as stated: with every query answering "not
found", exhausting the ceiling propagates `UnboundLocalError` — which is
not a remote-API failure — to the caller. -/
theorem find_request_ceiling_counterexample :
    find_request notFoundAlways = (.error .unboundLocalError, 10) ∧
    isRemoteApiFailure .unboundLocalError = false := by
  constructor
  · rfl
  · rfl


/-- A strict comparator suitable for Python-style tuple sorting:
irreflexive, transitive, and with ties implying equality. -/
structure StrictLt {α : Type} (lt : α → α → Bool) : Prop where
  irrefl : ∀ a, lt a a = false
  trans : ∀ {a b c}, lt a b = true → lt b c = true → lt a c = true
  tie_eq : ∀ {a b}, lt a b = false → lt b a = false → a = b

/-- `charListLt` is irreflexive. -/
theorem charListLt_irrefl : ∀ a : List Char, charListLt a a = false := by
  intro a
  induction a with
  | nil => rfl
  | cons a0 as ih => simp [charListLt, ih]

/-- `charListLt` is transitive. -/
theorem charListLt_trans :
    ∀ (a b c : List Char), charListLt a b = true → charListLt b c = true →
      charListLt a c = true := by
  intro a
  induction a with
  | nil =>
    intro b c h1 h2
    cases b with
    | nil => simp [charListLt] at h1
    | cons b0 bs =>
      cases c with
      | nil => simp [charListLt] at h2
      | cons c0 cs => simp [charListLt]
  | cons a0 as ih =>
    intro b c h1 h2
    cases b with
    | nil => simp [charListLt] at h1
    | cons b0 bs =>
      cases c with
      | nil => simp [charListLt] at h2
      | cons c0 cs =>
        simp only [charListLt] at h1 h2 ⊢
        by_cases hab : a0 < b0
        · by_cases hbc : b0 < c0
          · rw [if_pos (lt_trans hab hbc)]
          · rw [if_neg hbc] at h2
            by_cases hcb : c0 < b0
            · rw [if_pos hcb] at h2; exact absurd h2 (by simp)
            · have hb : b0 = c0 := le_antisymm (not_lt.mp hcb) (not_lt.mp hbc)
              rw [if_pos (hb ▸ hab)]
        · rw [if_neg hab] at h1
          by_cases hba : b0 < a0
          · rw [if_pos hba] at h1; exact absurd h1 (by simp)
          · rw [if_neg hba] at h1
            have ha : a0 = b0 := le_antisymm (not_lt.mp hba) (not_lt.mp hab)
            subst ha
            by_cases hac : a0 < c0
            · rw [if_pos hac]
            · rw [if_neg hac] at h2 ⊢
              by_cases hca : c0 < a0
              · rw [if_pos hca] at h2; exact absurd h2 (by simp)
              · rw [if_neg hca] at h2 ⊢
                exact ih bs cs h1 h2

/-- Ties of `charListLt` are equalities. -/
theorem charListLt_tie :
    ∀ (a b : List Char), charListLt a b = false → charListLt b a = false →
      a = b := by
  intro a
  induction a with
  | nil =>
    intro b h1 _
    cases b with
    | nil => rfl
    | cons b0 bs => simp [charListLt] at h1
  | cons a0 as ih =>
    intro b h1 h2
    cases b with
    | nil => simp [charListLt] at h2
    | cons b0 bs =>
      simp only [charListLt] at h1 h2
      by_cases hab : a0 < b0
      · rw [if_pos hab] at h1; exact absurd h1 (by simp)
      · rw [if_neg hab] at h1
        by_cases hba : b0 < a0
        · rw [if_pos hba] at h2; exact absurd h2 (by simp)
        · rw [if_neg hba] at h1
          rw [if_neg hba, if_neg hab] at h2
          have ha : a0 = b0 := le_antisymm (not_lt.mp hba) (not_lt.mp hab)
          rw [ha, ih bs h1 h2]

/-- `strLt` is a strict comparator. -/
theorem strictLt_str : StrictLt strLt := by
  refine ⟨fun a => charListLt_irrefl _, ?_, ?_⟩
  · intro a b c h1 h2
    exact charListLt_trans _ _ _ h1 h2
  · intro a b h1 h2
    have h := charListLt_tie _ _ h1 h2
    cases a; cases b
    simpa [String.toList] using congrArg String.mk h

/-- `intLtB` is a strict comparator. -/
theorem strictLt_int : StrictLt intLtB := by
  refine ⟨?_, ?_, ?_⟩
  · intro a; simp [intLtB]
  · intro a b c h1 h2
    simp only [intLtB, decide_eq_true_eq] at h1 h2 ⊢
    omega
  · intro a b h1 h2
    simp only [intLtB, decide_eq_false_iff_not, not_lt] at h1 h2
    omega

/-- Totality of a lexicographic step. -/
theorem lexStepB_total {α : Type} (lt : α → α → Bool) (x y : α)
    {r s : Bool} (h : (r || s) = true) :
    (lexStepB lt x y r || lexStepB lt y x s) = true := by
  cases hxy : lt x y <;> cases hyx : lt y x <;>
    simp [lexStepB, hxy, hyx, h]

/-- Transitivity of a lexicographic step over a strict comparator. -/
theorem lexStepB_trans {α : Type} {lt : α → α → Bool} (H : StrictLt lt)
    {x y z : α} {r s t : Bool} (hr : r = true → s = true → t = true)
    (h1 : lexStepB lt x y r = true) (h2 : lexStepB lt y z s = true) :
    lexStepB lt x z t = true := by
  unfold lexStepB at h1 h2 ⊢
  cases hxy : lt x y with
  | true =>
    cases hyz : lt y z with
    | true => rw [if_pos (H.trans hxy hyz)]
    | false =>
      rw [hyz, if_neg Bool.false_ne_true] at h2
      cases hzy : lt z y with
      | true => rw [hzy] at h2; exact absurd h2 (by simp)
      | false =>
        have hyz' : y = z := H.tie_eq hyz hzy
        rw [if_pos (hyz' ▸ hxy)]
  | false =>
    rw [hxy, if_neg Bool.false_ne_true] at h1
    cases hyx : lt y x with
    | true => rw [hyx] at h1; exact absurd h1 (by simp)
    | false =>
      rw [hyx, if_neg Bool.false_ne_true] at h1
      have hxy' : x = y := H.tie_eq hxy hyx
      subst hxy'
      cases hxz : lt x z with
      | true => rw [if_pos rfl]
      | false =>
        rw [hxz, if_neg Bool.false_ne_true] at h2
        rw [if_neg Bool.false_ne_true]
        cases hzx : lt z x with
        | true => rw [hzx] at h2; exact absurd h2 (by simp)
        | false =>
          rw [hzx, if_neg Bool.false_ne_true] at h2
          rw [if_neg Bool.false_ne_true]
          exact hr h1 h2

/-- Totality of an optional lexicographic step. -/
theorem lexStepOptB_total {α : Type} (lt : α → α → Bool)
    (x y : Option α) {r s : Bool} (h : (r || s) = true) :
    (lexStepOptB lt x y r || lexStepOptB lt y x s) = true := by
  cases x <;> cases y <;> simp only [lexStepOptB]
  · exact h
  · rfl
  · rfl
  · exact lexStepB_total lt _ _ h

/-- Transitivity of an optional lexicographic step. -/
theorem lexStepOptB_trans {α : Type} {lt : α → α → Bool} (H : StrictLt lt)
    {x y z : Option α} {r s t : Bool} (hr : r = true → s = true → t = true)
    (h1 : lexStepOptB lt x y r = true) (h2 : lexStepOptB lt y z s = true) :
    lexStepOptB lt x z t = true := by
  cases x <;> cases y <;> cases z <;>
    simp only [lexStepOptB] at h1 h2 ⊢ <;>
    first
    | exact hr h1 h2
    | exact Bool.noConfusion h1
    | exact Bool.noConfusion h2
    | exact lexStepB_trans H hr h1 h2

/-- `rowLe` is total at every level. -/
theorem rowLe_total (level : Nat) (a b : Candidate) :
    (rowLe level a b || rowLe level b a) = true := by
  unfold rowLe
  by_cases h0 : level = 0
  · rw [if_pos h0, if_pos h0]
    exact lexStepOptB_total _ _ _
      (lexStepOptB_total _ _ _
        (lexStepB_total _ _ _ (lexStepB_total _ _ _ rfl)))
  · rw [if_neg h0, if_neg h0]
    by_cases h1 : level = 1
    · rw [if_pos h1, if_pos h1]
      exact lexStepOptB_total _ _ _
        (lexStepB_total _ _ _ (lexStepB_total _ _ _ rfl))
    · rw [if_neg h1, if_neg h1]
      exact lexStepB_total _ _ _ (lexStepB_total _ _ _ rfl)

/-- `rowLe` is reflexive at every level. -/
theorem rowLe_refl (level : Nat) (a : Candidate) :
    rowLe level a a = true := by
  have hstep : ∀ {β : Type} (lt : β → β → Bool), StrictLt lt → ∀ (x : β) (r : Bool),
      lexStepB lt x x r = r := by
    intro β lt H x r
    simp [lexStepB, H.irrefl x]
  have hstepOpt : ∀ {β : Type} (lt : β → β → Bool), StrictLt lt →
      ∀ (x : Option β) (r : Bool), lexStepOptB lt x x r = r := by
    intro β lt H x r
    cases x with
    | none => rfl
    | some v => simp [lexStepOptB, hstep lt H]
  unfold rowLe
  by_cases h0 : level = 0
  · rw [if_pos h0]
    rw [hstepOpt intLtB strictLt_int, hstepOpt strLt strictLt_str,
      hstep strLt strictLt_str, hstep strLt strictLt_str]
  · rw [if_neg h0]
    by_cases h1 : level = 1
    · rw [if_pos h1]
      rw [hstepOpt strLt strictLt_str, hstep strLt strictLt_str,
        hstep strLt strictLt_str]
    · rw [if_neg h1]
      rw [hstep strLt strictLt_str, hstep strLt strictLt_str]

/-- `rowLe` is transitive at every level. -/
theorem rowLe_trans (level : Nat) {a b c : Candidate}
    (h1 : rowLe level a b = true) (h2 : rowLe level b c = true) :
    rowLe level a c = true := by
  unfold rowLe at h1 h2 ⊢
  by_cases h0 : level = 0
  · rw [if_pos h0] at h1 h2 ⊢
    refine lexStepOptB_trans strictLt_int ?_ h1 h2
    intro g1 g2
    refine lexStepOptB_trans strictLt_str ?_ g1 g2
    intro g1 g2
    refine lexStepB_trans strictLt_str ?_ g1 g2
    intro g1 g2
    exact lexStepB_trans strictLt_str (fun _ _ => rfl) g1 g2
  · rw [if_neg h0] at h1 h2 ⊢
    by_cases hl1 : level = 1
    · rw [if_pos hl1] at h1 h2 ⊢
      refine lexStepOptB_trans strictLt_str ?_ h1 h2
      intro g1 g2
      refine lexStepB_trans strictLt_str ?_ g1 g2
      intro g1 g2
      exact lexStepB_trans strictLt_str (fun _ _ => rfl) g1 g2
    · rw [if_neg hl1] at h1 h2 ⊢
      refine lexStepB_trans strictLt_str ?_ h1 h2
      intro g1 g2
      exact lexStepB_trans strictLt_str (fun _ _ => rfl) g1 g2

/-- In a sorted list, every element is related to the last one. -/
theorem sorted_getLast_max {α : Type} {r : α → α → Prop}
    (hrefl : ∀ a, r a a) :
    ∀ (l : List α), l.Sorted r → ∀ c, l.getLast? = some c →
      ∀ x ∈ l, r x c := by
  intro l
  induction l with
  | nil => intro _ c _ x hx; cases hx
  | cons a t ih =>
    intro hs c hc x hx
    cases t with
    | nil =>
      obtain rfl : a = c := by simpa using hc
      obtain rfl : x = a := by simpa using hx
      exact hrefl _
    | cons b t' =>
      rw [List.getLast?_cons_cons] at hc
      have hcmem : c ∈ b :: t' := by
        obtain ⟨hne, hceq⟩ :=
          List.mem_getLast?_eq_getLast (Option.mem_def.mpr hc)
        exact hceq ▸ List.getLast_mem hne
      rcases List.mem_cons.mp hx with rfl | hx'
      · exact List.rel_of_sorted_cons hs c hcmem
      · exact ih hs.of_cons c hc x hx'


/-- C3 (amended): constraint-based image selection is a deterministic
maximum under the ordering the code actually sorts by — at the numeric
level `(int_sort, alpha_sort, location, id)`, i.e. with the capture string
as a tie-break between the numeric key and the location (the claim's
`(sort-key, location, identifier)` only matches at the lexical and
no-group levels).  An empty candidate set raises
`ValueError('no available images match constraints')`, the spec's
`NoMatchingImage`; this holds for both the regex branch and the
owners-only branch. -/
theorem get_image_regex_spec (f : String → MatchRes) (images : List ImageObj)
    (level : Nat) (opts : List Candidate)
    (hg : gatherOptions f images 0 [] = .ok (level, opts)) :
    (opts = [] → get_image_regex f images =
      .error (.valueError "no available images match constraints")) ∧
    (opts ≠ [] → ∃ c, c ∈ opts ∧ get_image_regex f images = .ok c.img ∧
      ∀ d ∈ opts, rowLe level d c = true) ∧
    (∀ r1 r2 : Except PyErr ImageObj, get_image_regex f images = r1 →
      get_image_regex f images = r2 → r1 = r2) ∧
    (images.map (fun i => (⟨none, none, i.location, i.id, i⟩ : Candidate))
        = [] →
      get_image_noregex images =
        .error (.valueError "no available images match constraints")) ∧
    (images.map (fun i => (⟨none, none, i.location, i.id, i⟩ : Candidate))
        ≠ [] →
      ∃ c, c ∈ images.map
          (fun i => (⟨none, none, i.location, i.id, i⟩ : Candidate)) ∧
        get_image_noregex images = .ok c.img ∧
        ∀ d ∈ images.map
          (fun i => (⟨none, none, i.location, i.id, i⟩ : Candidate)),
          rowLe 2 d c = true) := by
  haveI htot : ∀ lv, IsTotal Candidate (fun a b => rowLe lv a b = true) :=
    fun lv => ⟨fun a b => Bool.or_eq_true_iff.mp (rowLe_total lv a b)⟩
  haveI htrans : ∀ lv, IsTrans Candidate (fun a b => rowLe lv a b = true) :=
    fun lv => ⟨fun _ _ _ h1 h2 => rowLe_trans lv h1 h2⟩
  have hmax : ∀ (lv : Nat) (l : List Candidate), l ≠ [] →
      ∃ c, c ∈ l ∧
        (List.insertionSort (fun a b => rowLe lv a b = true) l).getLast?
          = some c ∧
        ∀ d ∈ l, rowLe lv d c = true := by
    intro lv l hne
    haveI := htot lv
    haveI := htrans lv
    have hperm := List.perm_insertionSort
      (fun a b => rowLe lv a b = true) l
    have hsne : List.insertionSort (fun a b => rowLe lv a b = true) l ≠ [] := by
      intro hnil
      exact hne (List.Perm.eq_nil (hnil ▸ hperm.symm))
    obtain ⟨c, hc⟩ := Option.isSome_iff_exists.mp
      (List.getLast?_isSome.mpr hsne)
    have hcmem : c ∈ l := hperm.mem_iff.mp (by
      obtain ⟨hx, hceq⟩ :=
        List.mem_getLast?_eq_getLast (Option.mem_def.mpr hc)
      exact hceq ▸ List.getLast_mem hx)
    refine ⟨c, hcmem, hc, fun d hd => ?_⟩
    exact sorted_getLast_max (rowLe_refl lv) _
      (List.sorted_insertionSort (fun a b => rowLe lv a b = true) l) c hc d
      (hperm.mem_iff.mpr hd)
  refine ⟨?_, ?_, fun r1 r2 e1 e2 => e1.symm.trans e2, ?_, ?_⟩
  · intro hopts
    subst hopts
    unfold get_image_regex
    rw [hg]
    rfl
  · intro hopts
    obtain ⟨c, hcmem, hc, hmaxc⟩ := hmax level opts hopts
    refine ⟨c, hcmem, ?_, hmaxc⟩
    unfold get_image_regex
    rw [hg]
    dsimp only
    rw [hc]
  · intro hmap
    unfold get_image_noregex
    dsimp only
    rw [hmap]
    rfl
  · intro hmap
    obtain ⟨c, hcmem, hc, hmaxc⟩ := hmax 2 _ hmap
    refine ⟨c, hcmem, ?_, hmaxc⟩
    unfold get_image_noregex
    dsimp only
    rw [hc]

/-- Counterexample for C3 as stated: under the (realisable, e.g. by the
pattern `z*-(\d+)`) matches of `c3matchf`, the code picks `imgZ1` —
because the numeric keys tie at 1 and the capture strings "01" < "1"
decide — while the claim's `(sort-key, location, identifier)` ordering
picks `imgZZ01`, whose location is larger. -/
theorem get_image_order_counterexample :
    get_image_regex c3matchf [imgZ1, imgZZ01] = .ok imgZ1 ∧
    selectImage_claimOrder c3matchf [imgZ1, imgZZ01] = .ok imgZZ01 ∧
    imgZ1 ≠ imgZZ01 :=
  ⟨by decide, by decide, by decide⟩

/-- Witness for C3 (amended) at the concrete two-image candidate set:
the selected image is a maximum of the gathered rows under the code's
level-0 ordering, and repeated selection is deterministic. -/
theorem get_image_regex_spec_witness :
    (∃ c, c ∈ c3opts ∧
      get_image_regex c3matchf [imgZ1, imgZZ01] = .ok c.img ∧
      ∀ d ∈ c3opts, rowLe 0 d c = true) ∧
    (Except.ok imgZ1 : Except PyErr ImageObj) = .ok imgZ1 :=
  ⟨(get_image_regex_spec c3matchf [imgZ1, imgZZ01] 0 c3opts (by decide)).2.1
      (by decide),
   (get_image_regex_spec c3matchf [imgZ1, imgZZ01] 0 c3opts (by decide)).2.2.1
      (.ok imgZ1) (.ok imgZ1) (by decide) (by decide)⟩


/-- C7 (amended): the extraction level that `get_image` applies at sorting
time is a single value, uniform across the whole candidate set, but it is
the running maximum of the per-candidate levels over all kept candidates —
a later candidate whose capture fails to parse as an integer raises the
level from 0 to 1 (and a no-group match raises it to 2), so the first
candidate's capture-group shape does not by itself decide the level.
Stated for any starting level and any gathered prefix; the hypothesis rules
out the capture-group-did-not-participate rows, on which the level-0 code
path raises `TypeError` instead of producing a level at all. -/
theorem gather_level_spec (f : String → MatchRes) :
    ∀ (images : List ImageObj) (l0 : Nat) (acc : List Candidate)
      (L : Nat) (opts : List Candidate),
      gatherOptions f images l0 acc = .ok (L, opts) →
      (∀ img ∈ images, keptImage f img = true →
        f img.location ≠ .group1 none) →
      L = shapeLevelFold f l0 images := by
  intro images
  induction images with
  | nil =>
    intro l0 acc L opts h _
    unfold gatherOptions at h
    injection h with h'
    rw [shapeLevelFold]
    exact (congrArg Prod.fst h').symm
  | cons image rest ih =>
    intro l0 acc L opts h hnone
    have hnone' : ∀ img ∈ rest, keptImage f img = true →
        f img.location ≠ .group1 none :=
      fun img hm => hnone img (List.mem_cons_of_mem _ hm)
    unfold gatherOptions at h
    rw [shapeLevelFold]
    by_cases hst : image.state ≠ "available"
    · rw [if_pos hst] at h
      rw [if_neg (by simp [keptImage, hst])]
      exact ih l0 acc L opts h hnone'
    · rw [if_neg hst] at h
      have hst' : image.state = "available" := not_not.mp hst
      rcases hfm : f image.location with _ | _ | g
      · rw [hfm] at h
        dsimp only at h
        rw [if_neg (by simp [keptImage, hfm])]
        exact ih l0 acc L opts h hnone'
      · rw [hfm] at h
        dsimp only at h
        have hkept : keptImage f image = true := by
          simp [keptImage, hst', hfm]
        rw [if_pos hkept]
        by_cases hl2 : l0 < 2
        · rw [if_pos hl2] at h
          have hmx : Nat.max l0 (shapeLevel MatchRes.noGroup) = 2 := by
            simp only [shapeLevel]
            exact Nat.max_eq_right (by omega)
          rw [hmx]
          exact ih 2 _ L opts h hnone'
        · rw [if_neg hl2] at h
          have hmx : Nat.max l0 (shapeLevel MatchRes.noGroup) = l0 := by
            simp only [shapeLevel]
            exact Nat.max_eq_left (by omega)
          rw [hmx]
          exact ih l0 _ L opts h hnone'
      · rw [hfm] at h
        dsimp only at h
        have hkept : keptImage f image = true := by
          simp [keptImage, hst', hfm]
        have hgn : g ≠ none := by
          intro hgnil
          exact hnone image (List.mem_cons_self _ _) hkept
            (by rw [hfm, hgnil])
        obtain ⟨str, rfl⟩ := Option.ne_none_iff_exists'.mp hgn
        rw [if_pos hkept]
        by_cases hl2 : l0 < 2
        · rw [if_pos hl2] at h
          dsimp only at h
          by_cases hl0 : l0 = 0
          · subst hl0
            rw [if_pos rfl] at h
            rcases hpi : pyInt str with _ | n
            · rw [hpi] at h
              dsimp only at h
              have hmx : Nat.max 0
                  (shapeLevel (MatchRes.group1 (some str))) = 1 := by
                simp [shapeLevel, hpi]
              rw [hmx]
              exact ih 1 _ L opts h hnone'
            · rw [hpi] at h
              dsimp only at h
              have hmx : Nat.max 0
                  (shapeLevel (MatchRes.group1 (some str))) = 0 := by
                simp [shapeLevel, hpi]
              rw [hmx]
              exact ih 0 _ L opts h hnone'
          · rw [if_neg hl0] at h
            have hl1 : l0 = 1 := by omega
            subst hl1
            have hmx : Nat.max 1
                (shapeLevel (MatchRes.group1 (some str))) = 1 := by
              simp only [shapeLevel]
              by_cases hpi : (pyInt str).isSome <;> simp [hpi]
            rw [hmx]
            exact ih 1 _ L opts h hnone'
        · rw [if_neg hl2] at h
          have hmx : Nat.max l0
              (shapeLevel (MatchRes.group1 (some str))) = l0 := by
            simp only [shapeLevel]
            by_cases hpi : (pyInt str).isSome
            · rw [if_pos hpi]
              exact Nat.max_eq_left (by omega)
            · rw [if_neg (by simp [hpi])]
              exact Nat.max_eq_left (by omega)
          rw [hmx]
          exact ih l0 _ L opts h hnone'

/-- Counterexample for C7 as stated: under `c7matchf` (realisable, e.g. by
the pattern `(.*)-x`) the first kept candidate's capture "1" is numeric —
its own shape level is 0 — yet the level applied at sorting time is 1,
because the second candidate's capture "a" fails integer parsing and
escalates the level. -/
theorem gather_level_first_counterexample :
    gatherOptions c7matchf [img1x, imgax] 0 [] = .ok (1, c7opts) ∧
    shapeLevel (c7matchf img1x.location) = 0 ∧ (1 : Nat) ≠ 0 :=
  ⟨by decide, by decide, by decide⟩

/-- Witness for C7 (amended) at the concrete escalating candidate set:
the level the code sorts with equals the running maximum over all kept
candidates. -/
theorem gather_level_spec_witness :
    (1 : Nat) = shapeLevelFold c7matchf 0 [img1x, imgax] :=
  gather_level_spec c7matchf [img1x, imgax] 0 [] 1 c7opts (by decide)
    (by decide)


/-- A call list contains no spot request at all. -/
def NoSpot (l : List RemoteCall) : Prop :=
  ∀ p a, RemoteCall.requestSpotInstances p a ∉ l

/-- Every spot request in a call list carries `ami` as its image
reference. -/
def SpotRefIs (ami : Option String) (l : List RemoteCall) : Prop :=
  ∀ p a, RemoteCall.requestSpotInstances p a ∈ l → a = ami

/-- The empty list has no spot request. -/
theorem noSpot_nil : NoSpot [] := by
  intro p a h
  cases h

/-- Concatenation preserves spot-freeness. -/
theorem noSpot_append {l1 l2 : List RemoteCall} (h1 : NoSpot l1)
    (h2 : NoSpot l2) : NoSpot (l1 ++ l2) := by
  intro p a h
  rcases List.mem_append.mp h with h | h
  · exact h1 p a h
  · exact h2 p a h

/-- A non-spot head preserves spot-freeness. -/
theorem noSpot_cons {c : RemoteCall} {l : List RemoteCall}
    (hc : ∀ p a, c ≠ RemoteCall.requestSpotInstances p a) (h : NoSpot l) :
    NoSpot (c :: l) := by
  intro p a hm
  rcases List.mem_cons.mp hm with hm | hm
  · exact hc p a hm.symm
  · exact h p a hm

/-- Replicating a non-spot call is spot-free. -/
theorem noSpot_replicate (n : Nat) (c : RemoteCall)
    (hc : ∀ p a, c ≠ RemoteCall.requestSpotInstances p a) :
    NoSpot (List.replicate n c) := by
  intro p a hm
  exact hc p a (List.eq_of_mem_replicate hm).symm

/-- A spot-free list trivially pins every spot reference. -/
theorem noSpot_spotRefIs {ami : Option String} {l : List RemoteCall}
    (h : NoSpot l) : SpotRefIs ami l := by
  intro p a hm
  exact absurd hm (h p a)

/-- Concatenation preserves pinned spot references. -/
theorem spotRefIs_append {ami : Option String} {l1 l2 : List RemoteCall}
    (h1 : SpotRefIs ami l1) (h2 : SpotRefIs ami l2) :
    SpotRefIs ami (l1 ++ l2) := by
  intro p a hm
  rcases List.mem_append.mp hm with hm | hm
  · exact h1 p a hm
  · exact h2 p a hm

/-- The calls of `get_image` are spot-free. -/
theorem get_image_noSpot (s : SlaveState) (images : List ImageObj) :
    NoSpot (get_image s images).2 := by
  unfold get_image
  rcases s.image with _ | img
  · rcases s.matchf with _ | f <;>
      exact noSpot_cons (by intro p a h; cases h) noSpot_nil
  · exact noSpot_nil

/-- The calls of `_create_volumes_go` are spot-free. -/
theorem create_volumes_go_noSpot (instId : String) (env : Env) :
    ∀ (cvs : List (String × Nat × String)) (fuel ck qk : Nat)
      (res : Except PyErr Unit) (ck' qk' : Nat) (calls : List RemoteCall),
      _create_volumes_go instId env cvs fuel ck qk =
        some (res, ck', qk', calls) →
      NoSpot calls := by
  intro cvs
  induction cvs with
  | nil =>
    intro fuel ck qk res ck' qk' calls h
    unfold _create_volumes_go at h
    simp only [Option.some.injEq, Prod.mk.injEq] at h
    obtain ⟨-, -, -, rfl⟩ := h
    exact noSpot_nil
  | cons cv rest ih =>
    intro fuel ck qk res ck' qk' calls h
    obtain ⟨device_node, volume_size, zone⟩ := cv
    unfold _create_volumes_go at h
    rcases hq : env.volume_queries qk with code | l
    · rw [hq] at h
      dsimp only at h
      simp only [Option.some.injEq, Prod.mk.injEq] at h
      obtain ⟨-, -, -, rfl⟩ := h
      exact noSpot_cons (by intro p a hx; cases hx)
        (noSpot_cons (by intro p a hx; cases hx) noSpot_nil)
    · rw [hq] at h
      rcases l with _ | ⟨v, vs⟩
      · dsimp only at h
        simp only [Option.some.injEq, Prod.mk.injEq] at h
        obtain ⟨-, -, -, rfl⟩ := h
        exact noSpot_cons (by intro p a hx; cases hx)
          (noSpot_cons (by intro p a hx; cases hx) noSpot_nil)
      · dsimp only at h
        rcases hwl : volume_wait_loop env.volume_queries fuel v (qk + 1)
          with _ | ⟨wres, qk2⟩
        · rw [hwl] at h
          exact absurd h (by simp)
        · rw [hwl] at h
          rcases wres with e | vol
          · dsimp only at h
            simp only [Option.some.injEq, Prod.mk.injEq] at h
            obtain ⟨-, -, -, rfl⟩ := h
            exact noSpot_cons (by intro p a hx; cases hx)
              (noSpot_replicate _ _ (by intro p a; simp))
          · dsimp only at h
            rcases hrec : _create_volumes_go instId env rest fuel (ck + 1) qk2
              with _ | ⟨res2, ck2, qk3, calls2⟩
            · rw [hrec] at h
              exact absurd h (by simp)
            · rw [hrec] at h
              dsimp only at h
              simp only [Option.some.injEq, Prod.mk.injEq] at h
              obtain ⟨-, -, -, rfl⟩ := h
              refine noSpot_append
                (noSpot_cons (fun p a hx => RemoteCall.noConfusion hx)
                  (noSpot_append
                    (noSpot_append noSpot_nil
                      (noSpot_replicate _ _
                        (fun p a hx => RemoteCall.noConfusion hx)))
                    (noSpot_cons (fun p a hx => RemoteCall.noConfusion hx)
                      noSpot_nil)))
                (ih fuel (ck + 1) qk2 res2 ck2 qk3 calls2 hrec)

/-- The calls of `_handle_volumes` are spot-free. -/
theorem handle_volumes_noSpot (cvs : List (String × Nat × String))
    (dvt : Bool) (vols : List (String × String)) (instId : String)
    (env : Env) (fuel : Nat) (res : Except PyErr Unit)
    (calls : List RemoteCall)
    (h : _handle_volumes cvs dvt vols instId env fuel = some (res, calls)) :
    NoSpot calls := by
  have hdel : NoSpot (_handle_delete_on_term dvt instId env) := by
    unfold _handle_delete_on_term
    by_cases hd : dvt = false
    · rw [if_pos hd]; exact noSpot_nil
    · rw [if_neg hd]
      refine noSpot_cons (by intro p a hx; cases hx) ?_
      by_cases hb : env.block_device_mapping ≠ []
      · rw [if_pos hb]
        exact noSpot_cons (by intro p a hx; cases hx) noSpot_nil
      · rw [if_neg hb]; exact noSpot_nil
  have hatt : NoSpot (_attach_volumes vols instId) := by
    intro p a hm
    obtain ⟨v, -, hv⟩ := List.mem_map.mp hm
    cases hv
  unfold _handle_volumes at h
  rcases hcp : (if cvs.length > 0 then
      _create_volumes_go instId env cvs fuel 0 0
    else some (.ok (), 0, 0, [])) with _ | ⟨cres, ck, qk, cc⟩
  · rw [hcp] at h
    exact absurd h (by simp)
  · rw [hcp] at h
    have hcc : NoSpot cc := by
      by_cases hlen : cvs.length > 0
      · rw [if_pos hlen] at hcp
        exact create_volumes_go_noSpot instId env cvs fuel 0 0 cres ck qk cc hcp
      · rw [if_neg hlen] at hcp
        simp only [Option.some.injEq, Prod.mk.injEq] at hcp
        obtain ⟨-, -, -, rfl⟩ := hcp
        exact noSpot_nil
    rcases cres with e | u
    · dsimp only at h
      simp only [Option.some.injEq, Prod.mk.injEq] at h
      obtain ⟨-, rfl⟩ := h
      exact hcc
    · dsimp only at h
      simp only [Option.some.injEq, Prod.mk.injEq] at h
      obtain ⟨-, rfl⟩ := h
      refine noSpot_append (noSpot_append (noSpot_append hcc hdel) ?_) ?_
      · by_cases hv : vols.length > 0
        · rw [if_pos hv]; exact hatt
        · rw [if_neg hv]; exact noSpot_nil
      · exact noSpot_cons (fun p a hx => RemoteCall.noConfusion hx) noSpot_nil

/-- The calls of `_wait_for_instance` are spot-free. -/
theorem wait_for_instance_noSpot (s : SlaveState) (imgid : String)
    (env : Env) (fuel : Nat) (s' : SlaveState)
    (res : Except PyErr (Option String × Option String × Option String))
    (wc : List RemoteCall)
    (h : _wait_for_instance s imgid env fuel = some (s', res, wc)) :
    NoSpot wc := by
  unfold _wait_for_instance at h
  rcases hsi : s.inst with _ | inst0
  · rw [hsi] at h
    dsimp only at h
    simp only [Option.some.injEq, Prod.mk.injEq] at h
    obtain ⟨-, -, rfl⟩ := h
    exact noSpot_nil
  · rw [hsi] at h
    dsimp only at h
    rcases hw : wait_instance_loop env.inst_updates fuel inst0.state 0 0
      with _ | ⟨err?, st, k, dur⟩
    · rw [hw] at h
      exact absurd h (by simp)
    · rw [hw] at h
      dsimp only at h
      have hupd : NoSpot (List.replicate k (RemoteCall.instUpdate inst0.id)) :=
        noSpot_replicate _ _ (by intro p a; simp)
      have hip : NoSpot (match s.elastic_ip with
          | some ip => [RemoteCall.useIp inst0.id ip]
          | none => []) := by
        rcases s.elastic_ip with _ | ip
        · exact noSpot_nil
        · exact noSpot_cons (by intro p a hx; cases hx) noSpot_nil
      rcases err? with _ | e
      · dsimp only at h
        by_cases hrun : st = RUNNING
        · rw [if_pos hrun] at h
          rcases hhv : _handle_volumes s.create_volumes s.delete_vol_term
              s.volumes inst0.id env fuel with _ | ⟨hvres, volCalls⟩
          · rw [hhv] at h
            exact absurd h (by simp)
          · rw [hhv] at h
            have hvc : NoSpot volCalls :=
              handle_volumes_noSpot _ _ _ _ _ _ _ _ hhv
            rcases hvres with e | u
            · dsimp only at h
              simp only [Option.some.injEq, Prod.mk.injEq] at h
              obtain ⟨-, -, rfl⟩ := h
              refine noSpot_append (noSpot_append (noSpot_append hupd ?_) hip)
                hvc
              exact noSpot_cons (by intro p a hx; cases hx) noSpot_nil
            · dsimp only at h
              simp only [Option.some.injEq, Prod.mk.injEq] at h
              obtain ⟨-, -, rfl⟩ := h
              refine noSpot_append (noSpot_append (noSpot_append
                (noSpot_append hupd ?_) hip) hvc) ?_
              · exact noSpot_cons (by intro p a hx; cases hx) noSpot_nil
              · by_cases ht : s.tags.length > 0
                · rw [if_pos ht]
                  exact noSpot_cons (by intro p a hx; cases hx) noSpot_nil
                · rw [if_neg ht]
                  exact noSpot_nil
        · rw [if_neg hrun] at h
          simp only [Option.some.injEq, Prod.mk.injEq] at h
          obtain ⟨-, -, rfl⟩ := h
          exact hupd
      · dsimp only at h
        simp only [Option.some.injEq, Prod.mk.injEq] at h
        obtain ⟨-, -, rfl⟩ := h
        exact hupd


/-- When `_wait_for_instance` returns a triple whose image-id slot is
filled, that slot is exactly the `.id` of the object the caller passed. -/
theorem wait_for_instance_ok_image (s : SlaveState) (imgid : String)
    (env : Env) (fuel : Nat) (s' : SlaveState) (a c : Option String)
    (b : String) (wc : List RemoteCall)
    (h : _wait_for_instance s imgid env fuel =
      some (s', .ok (a, some b, c), wc)) :
    b = imgid := by
  unfold _wait_for_instance at h
  rcases hsi : s.inst with _ | inst0
  · rw [hsi] at h
    dsimp only at h
    simp at h
  · rw [hsi] at h
    dsimp only at h
    rcases hw : wait_instance_loop env.inst_updates fuel inst0.state 0 0
      with _ | ⟨err?, st, k, dur⟩
    · rw [hw] at h
      exact absurd h (by simp)
    · rw [hw] at h
      dsimp only at h
      rcases err? with _ | e
      · dsimp only at h
        by_cases hrun : st = RUNNING
        · rw [if_pos hrun] at h
          rcases hhv : _handle_volumes s.create_volumes s.delete_vol_term
              s.volumes inst0.id env fuel with _ | ⟨hvres, volCalls⟩
          · rw [hhv] at h
            exact absurd h (by simp)
          · rw [hhv] at h
            rcases hvres with e | u
            · dsimp only at h
              simp at h
            · dsimp only at h
              simp only [Option.some.injEq, Prod.mk.injEq, Except.ok.injEq]
                at h
              obtain ⟨-, ⟨-, hb, -⟩, -⟩ := h
              exact hb.symm
        · rw [if_neg hrun] at h
          simp at h
      · dsimp only at h
        simp at h

/-- `get_image` ignores the owned-instance field of the state. -/
theorem get_image_inst_invariant (s : SlaveState) (x : Option InstanceObj)
    (images : List ImageObj) :
    get_image { s with inst := x } images = get_image s images := rfl

/-- C9: every spot request `_request_spot_instance` issues carries
`self.ami` — the explicitly configured image id, or `None` under
image-selection constraints — as its image reference; the image chosen by
the Resource Selector is never supplied to the spot request itself, and is
only consulted afterwards: a successful result's image-id slot is the id
of the image `get_image` selects for this configuration. -/
theorem spot_request_uses_configured_ami (s : SlaveState) (env : Env)
    (fuel : Nat)
    (r : SlaveState ×
      Except PyErr (Option String × Option String × Option String) ×
      List RemoteCall)
    (h : _request_spot_instance s env fuel = some r) :
    SpotRefIs s.ami r.2.2 ∧
    (∀ iid imgid st, r.2.1 = .ok (some iid, some imgid, some st) →
      ∃ img gc, get_image s env.images = (.ok img, gc) ∧ imgid = img.id) := by
  obtain ⟨s', res, calls⟩ := r
  dsimp only at h ⊢
  unfold _request_spot_instance at h
  by_cases hgt : computeTargetPrice env.spot_prices s.instance_type
      s.price_multiplier > s.max_spot_price
  · rw [if_pos hgt] at h
    simp only [Option.some.injEq, Prod.mk.injEq] at h
    obtain ⟨-, hres, hcalls⟩ := h
    constructor
    · rw [← hcalls]
      exact noSpot_spotRefIs (noSpot_cons
        (fun p a hx => RemoteCall.noConfusion hx) noSpot_nil)
    · intro iid imgid st h2
      rw [← hres] at h2
      exact absurd h2 (by simp)
  · rw [if_neg hgt] at h
    rcases hsr : env.spot_request_reservations with _ | ⟨resv, rs⟩
    · rw [hsr] at h
      dsimp only at h
      simp only [Option.some.injEq, Prod.mk.injEq] at h
      obtain ⟨-, hres, hcalls⟩ := h
      constructor
      · rw [← hcalls]
        intro p a hm
        rcases List.mem_cons.mp hm with hm | hm
        · exact RemoteCall.noConfusion hm
        · rcases List.mem_cons.mp hm with hm | hm
          · injection hm
          · cases hm
      · intro iid imgid st h2
        rw [← hres] at h2
        exact absurd h2 (by simp)
    · rw [hsr] at h
      dsimp only at h
      rcases hwr : _wait_for_request env.spot_queries fuel
        with _ | ⟨wres, nq⟩
      · rw [hwr] at h
        exact absurd h (by simp)
      · rw [hwr] at h
        have hpre : SpotRefIs s.ami
            ([RemoteCall.getSpotPriceHistory] ++
              [RemoteCall.requestSpotInstances
                (computeTargetPrice env.spot_prices s.instance_type
                  s.price_multiplier) s.ami] ++
              List.replicate nq RemoteCall.getAllSpotInstanceRequests) := by
          refine spotRefIs_append (spotRefIs_append ?_ ?_) ?_
          · exact noSpot_spotRefIs (noSpot_cons
              (fun p a hx => RemoteCall.noConfusion hx) noSpot_nil)
          · intro p a hm
            rcases List.mem_cons.mp hm with hm | hm
            · injection hm
            · cases hm
          · exact noSpot_spotRefIs (noSpot_replicate _ _
              (fun p a hx => RemoteCall.noConfusion hx))
        rcases wres with e | req
        · dsimp only at h
          simp only [Option.some.injEq, Prod.mk.injEq] at h
          obtain ⟨-, hres, hcalls⟩ := h
          constructor
          · rw [← hcalls]
            exact hpre
          · intro iid imgid st h2
            rw [← hres] at h2
            exact absurd h2 (by simp)
        · dsimp only at h
          rcases hir : env.instances_result with _ | ⟨resv0, rs0⟩
          · rw [hir] at h
            dsimp only at h
            simp only [Option.some.injEq, Prod.mk.injEq] at h
            obtain ⟨-, hres, hcalls⟩ := h
            refine ⟨?_, ?_⟩
            · rw [← hcalls]
              refine spotRefIs_append hpre ?_
              exact noSpot_spotRefIs (noSpot_cons
                (fun p a hx => RemoteCall.noConfusion hx) noSpot_nil)
            · intro iid imgid st h2
              rw [← hres] at h2
              exact absurd h2 (by simp)
          · rw [hir] at h
            dsimp only at h
            rcases hri : resv0.instances with _ | ⟨inst, insts⟩
            · rw [hri] at h
              dsimp only at h
              simp only [Option.some.injEq, Prod.mk.injEq] at h
              obtain ⟨-, hres, hcalls⟩ := h
              refine ⟨?_, ?_⟩
              · rw [← hcalls]
                refine spotRefIs_append hpre ?_
                exact noSpot_spotRefIs (noSpot_cons
                  (fun p a hx => RemoteCall.noConfusion hx) noSpot_nil)
              · intro iid imgid st h2
                rw [← hres] at h2
                exact absurd h2 (by simp)
            · rw [hri] at h
              dsimp only at h
              rcases hgi : get_image { s with inst := some inst } env.images
                with ⟨gi, gc⟩
              rw [hgi] at h
              have hgc : NoSpot gc := by
                have := get_image_noSpot { s with inst := some inst }
                  env.images
                rw [hgi] at this
                exact this
              rcases gi with e | image
              · dsimp only at h
                simp only [Option.some.injEq, Prod.mk.injEq] at h
                obtain ⟨-, hres, hcalls⟩ := h
                refine ⟨?_, ?_⟩
                · rw [← hcalls]
                  refine spotRefIs_append (spotRefIs_append hpre ?_)
                    (noSpot_spotRefIs hgc)
                  exact noSpot_spotRefIs (noSpot_cons
                    (fun p a hx => RemoteCall.noConfusion hx) noSpot_nil)
                · intro iid imgid st h2
                  rw [← hres] at h2
                  exact absurd h2 (by simp)
              · dsimp only at h
                rcases hwi : _wait_for_instance { s with inst := some inst }
                    image.id env fuel with _ | ⟨s2, res2, wc⟩
                · rw [hwi] at h
                  exact absurd h (by simp)
                · rw [hwi] at h
                  dsimp only at h
                  simp only [Option.some.injEq, Prod.mk.injEq] at h
                  obtain ⟨-, hres, hcalls⟩ := h
                  refine ⟨?_, ?_⟩
                  · rw [← hcalls]
                    refine spotRefIs_append (spotRefIs_append
                      (spotRefIs_append hpre ?_) (noSpot_spotRefIs hgc))
                      (noSpot_spotRefIs
                        (wait_for_instance_noSpot _ _ _ _ _ _ _ hwi))
                    exact noSpot_spotRefIs (noSpot_cons
                      (fun p a hx => RemoteCall.noConfusion hx) noSpot_nil)
                  · intro iid imgid st h2
                    rw [← hres] at h2
                    subst h2
                    refine ⟨image, gc, ?_, ?_⟩
                    · rw [← get_image_inst_invariant s (some inst) env.images]
                      exact hgi
                    · exact wait_for_instance_ok_image _ _ _ _ _ _ _ _ _ hwi


/-- Witness for C9 at a constraints-mode slave (`self.ami = None`) whose
spot pipeline succeeds: the returned image id is the id of the image the
selector chooses for this configuration. -/
theorem spot_request_uses_configured_ami_witness :
    sConstraints.ami = none ∧
    (∃ img gc, get_image sConstraints envC9.images = (.ok img, gc) ∧
      "ami-7" = img.id) := by
  have hng : ¬ (computeTargetPrice envC9.spot_prices
      sConstraints.instance_type sConstraints.price_multiplier >
      sConstraints.max_spot_price) := by
    norm_num [computeTargetPrice, envC9, envBase, sConstraints, sBase]
  obtain ⟨r, hr⟩ : ∃ r, _request_spot_instance sConstraints envC9 1 = some r := by
    simp only [_request_spot_instance, if_neg hng]
    exact ⟨_, rfl⟩
  have hproj : (_request_spot_instance sConstraints envC9 1).map
      (fun t => t.2.1) =
      some (.ok (some "i-1", some "ami-7", some "00:00:00")) := by
    simp only [_request_spot_instance, if_neg hng]
    rfl
  rw [hr] at hproj
  simp only [Option.map_some', Option.some.injEq] at hproj
  exact ⟨rfl, (spot_request_uses_configured_ami sConstraints envC9 1 r hr).2
    "i-1" "ami-7" "00:00:00" hproj⟩

/-- C4: with the spot request fulfilled and the resolved instance going
from PENDING straight to TERMINATED (never RUNNING), the spot path returns
the `(None, None, None)` triple as an ordinary — successful — result
instead of raising, while the on-demand path in the very same situation
raises `SubstantiationFailed` carrying the instance id and the observed
state, which is what the spec requires of both paths. -/
theorem spot_path_terminal_no_raise :
    (_request_spot_instance sBase envC4 1).map
        (fun r => (r.1.inst, r.2.1)) =
      some (some ⟨"i-1", "terminated", "dns-1"⟩, .ok (none, none, none)) ∧
    (_start_instance sBase envC4 1).map (fun r => r.2.1) =
      some (.error (.substantiationFailed ["i-1", "terminated"])) := by
  constructor
  · have hng : ¬ (computeTargetPrice envC4.spot_prices sBase.instance_type
        sBase.price_multiplier > sBase.max_spot_price) := by
      norm_num [computeTargetPrice, envC4, envBase, sBase]
    simp only [_request_spot_instance, if_neg hng]
    rfl
  · rfl

end EC2
